import Mathlib

/-!
Verification development for the GenAI-BE interview-assistant backend.

The definitions below are a shallow embedding of the Python sources
(`main.py`, `utils/interview.py`): pure fragments become Lean functions,
the stateful pipeline and webhook router become explicit state-passing
functions over a world record, external collaborators (S3, Transcribe,
Bedrock, ElevenLabs, pydub/ffmpeg, the Graph API) become oracle records
whose fields describe each call's outcome, and Python exceptions become
`Except` values.  Theorems at the end settle the frozen claims C1..C10.
-/

namespace GenAIBE

/-- Python string slicing `s[:n]`: the first `n` characters. -/
def pySlice (s : String) (n : Nat) : String := ⟨s.data.take n⟩

/-- Python truthiness of a string: `""` is falsy, everything else truthy. -/
def pyTruthyStr (s : String) : Bool := s != ""

/-- Python truthiness of an optional string (`None` is falsy, `""` is falsy). -/
def pyTruthyStrO : Option String → Bool
  | none => false
  | some s => pyTruthyStr s

/-! ## Outbound senders (main.py `send_whatsapp_message`, `send_text_message`) -/

/-- The WhatsApp text payload built by `send_whatsapp_message` (main.py:338).
The transmitted body is `text[:4096]`. -/
structure WhatsTextPayload where
  messaging_product : String
  recipient_type : String
  to_recipient : String
  msg_type : String
  body : String
  deriving Repr, DecidableEq

/-- main.py:333-344 — payload construction of `send_whatsapp_message`. -/
def mkWhatsappTextPayload (recipient_id text : String) : WhatsTextPayload :=
  { messaging_product := "whatsapp"
    recipient_type := "individual"
    to_recipient := recipient_id
    msg_type := "text"
    body := pySlice text 4096 }

/-- The Messenger text payload built by `send_text_message` (main.py:397-400).
The transmitted body is `text[:640]`. -/
structure MessengerTextPayload where
  recipient_id : String
  body : String
  deriving Repr, DecidableEq

/-- main.py:393-400 — payload construction of `send_text_message`. -/
def mkMessengerTextPayload (recipient_id text : String) : MessengerTextPayload :=
  { recipient_id := recipient_id
    body := pySlice text 640 }

/-! ## `/interview` input validation (main.py:75-80) -/

/-- The upload-file argument of the `/interview` endpoint.  A present
`UploadFile` object is always truthy in Python. -/
structure UploadMeta where
  filename : String
  size : Nat
  deriving Repr, DecidableEq

/-- Result of the `/interview` endpoint validation prologue. -/
inductive ValidationResult
  | ok
  | err422 (detail : String)
  deriving Repr, DecidableEq

/-- main.py:75-80 — the two input-count checks of `interview_bot`.
The first check uses Python truthiness (`not audio and not text and not
question`), the second counts arguments that are not `None`
(`sum(1 for x in [audio, text, question] if x is not None)`). -/
def interviewInputCheck (audio : Option UploadMeta) (text question : Option String) :
    ValidationResult :=
  if !audio.isSome && !pyTruthyStrO text && !pyTruthyStrO question then
    .err422 "Either audio file, text, or question input is required"
  else if (if audio.isSome then 1 else 0) + (if text.isSome then 1 else 0)
      + (if question.isSome then 1 else 0) > 1 then
    .err422 "Provide only one of audio file, text, or question"
  else
    .ok

/-- Spec-side notion used by claim C7: the number of populated (provided,
i.e. not-None) inputs among audio, text, question. -/
def populatedCount (audio : Option UploadMeta) (text question : Option String) : Nat :=
  (if audio.isSome then 1 else 0) + (if text.isSome then 1 else 0)
    + (if question.isSome then 1 else 0)

/-! ## Transcript-result URI parsing (interview.py:126-137)

The code uses `urllib.parse.urlparse` and
`re.match(r"s3\.([a-z0-9-]+)\.amazonaws\.com", netloc)`.  Both are modelled
character-exactly on the inputs the code distinguishes: `urlparse` splits at
the first `"://"` into a (lower-cased) scheme, runs the netloc to the first
of `/`, `?` or `#` (CPython's `_splitnetloc`), then strips from the
remainder the fragment (first `#`), the query (first `?`), and — for
schemes in `uses_params`, which include `https` but not `s3` — the params
(first `;` in the last path segment), keeping the path; `re.match` anchors
at the start of the string only, so a match needs `"s3."`, then a nonempty
maximal run of `[a-z0-9-]` characters (the class excludes `.`, so greedy
matching never backtracks), then the literal `".amazonaws.com"` as a prefix
of the remainder, with any suffix allowed after it. -/

/-- Characters matched by the regex class `[a-z0-9-]`. -/
def isRegionChar (c : Char) : Bool :=
  ('a' ≤ c && c ≤ 'z') || ('0' ≤ c && c ≤ '9') || c == '-'

/-- `startsWithL pat l` : `pat` is a prefix of `l`. -/
def startsWithL : List Char → List Char → Bool
  | [], _ => true
  | _ :: _, [] => false
  | p :: ps, c :: cs => p == c && startsWithL ps cs

/-- `containsSubL pat l` : `pat` occurs as a contiguous substring of `l`
(Python's `pat in l` on strings). -/
def containsSubL (pat : List Char) : List Char → Bool
  | [] => startsWithL pat []
  | c :: rest => startsWithL pat (c :: rest) || containsSubL pat rest

/-- Split a character list at the first occurrence of `"://"` (the split
`urlparse` performs on the URI shapes this code receives). -/
def schemeSplit : List Char → Option (List Char × List Char)
  | [] => none
  | c :: rest =>
    if startsWithL [':', '/', '/'] (c :: rest) then some ([], rest.drop 2)
    else
      match schemeSplit rest with
      | none => none
      | some (a, b) => some (c :: a, b)

/-- Split the post-scheme part into netloc and remainder: as in CPython's
`_splitnetloc`, the netloc ends at the first of `/`, `?` or `#`, and the
delimiter stays in the remainder. -/
def netlocSplit : List Char → List Char × List Char
  | [] => ([], [])
  | c :: rest =>
    if c = '/' ∨ c = '?' ∨ c = '#' then ([], c :: rest)
    else
      let p := netlocSplit rest
      (c :: p.1, p.2)

/-- Split at the first occurrence of `sep` (the separator is dropped), or
`none` when `sep` does not occur — Python's `s.split(sep, 1)`. -/
def splitFirst (sep : Char) : List Char → Option (List Char × List Char)
  | [] => none
  | c :: rest =>
    if c = sep then some ([], rest)
    else
      match splitFirst sep rest with
      | none => none
      | some (a, b) => some (c :: a, b)

/-- `urlsplit`'s fragment split: `url, fragment = url.split('#', 1)` when a
`#` is present. -/
def fragSplit (l : List Char) : List Char × List Char :=
  match splitFirst '#' l with
  | none => (l, [])
  | some (a, b) => (a, b)

/-- `urlsplit`'s query split: `url, query = url.split('?', 1)` when a `?`
is present (after the fragment split). -/
def querySplit (l : List Char) : List Char × List Char :=
  match splitFirst '?' l with
  | none => (l, [])
  | some (a, b) => (a, b)

/-- CPython's `_splitparams`: split the path at the first `;` occurring in
its last segment (after the last `/`), if any. -/
def paramsSplit (l : List Char) : List Char × List Char :=
  let seg := (l.reverse.takeWhile (fun c => c != '/')).reverse
  let pre := l.take (l.length - seg.length)
  match splitFirst ';' seg with
  | none => (l, [])
  | some (a, b) => (pre ++ a, b)

/-- The schemes for which `urlparse` performs the params split
(CPython's `uses_params`). -/
def usesParams : List String :=
  ["", "ftp", "hdl", "prospero", "http", "imap", "https", "shttp", "rtsp",
   "rtspu", "sip", "sips", "mms", "sftp", "tel"]

/-- Python `path.split("/")` on a character list. -/
def splitOnSlash : List Char → List (List Char)
  | [] => [[]]
  | c :: rest =>
    if c = '/' then [] :: splitOnSlash rest
    else
      match splitOnSlash rest with
      | [] => [[c]]
      | h :: t => (c :: h) :: t

/-- Python `"/".join(parts)` on character lists. -/
def joinSlash : List (List Char) → List Char
  | [] => []
  | [x] => x
  | x :: y :: t => x ++ '/' :: joinSlash (y :: t)

/-- `re.match(r"s3\.([a-z0-9-]+)\.amazonaws\.com", netloc)` succeeds:
anchored at the start only, so an arbitrary suffix may follow. -/
def s3HostMatch (l : List Char) : Bool :=
  if startsWithL ['s', '3', '.'] l then
    let rest := l.drop 3
    let run := rest.takeWhile isRegionChar
    !run.isEmpty && startsWithL ".amazonaws.com".data (rest.drop run.length)
  else false

/-- The components of `urllib.parse.urlparse` the code reads. -/
structure UrlParts where
  scheme : String
  netloc : String
  path : String
  deriving Repr, DecidableEq

/-- ASCII lower-casing (urlparse lower-cases the scheme). -/
def lowerChars (l : List Char) : List Char := l.map Char.toLower

/-- Splits applied to the post-netloc remainder: fragment first, then query
(as in `urlsplit`), then the params split when the scheme calls for it (as
in `urlparse`).  Only the path is kept — the code reads nothing else. -/
def pathOfRest (scheme : String) (rest : List Char) : List Char :=
  let r1 := (fragSplit rest).1
  let r2 := (querySplit r1).1
  if usesParams.contains scheme then (paramsSplit r2).1 else r2

/-- Model of `urllib.parse.urlparse` on the URI shapes this code handles:
the scheme (lower-cased) is taken before `"://"`, the netloc runs to the
first of `/`, `?` or `#`, and the path is what remains after the fragment,
query and (scheme-permitting) params splits. -/
def urlparse (uri : String) : UrlParts :=
  match schemeSplit uri.data with
  | none => { scheme := "", netloc := "", path := ⟨pathOfRest "" uri.data⟩ }
  | some (sch, rest) =>
    let np := netlocSplit rest
    { scheme := ⟨lowerChars sch⟩, netloc := ⟨np.1⟩,
      path := ⟨pathOfRest ⟨lowerChars sch⟩ np.2⟩ }

/-- interview.py:126-137 — resolve the transcript-result URI to a
`(bucket, key)` pair, or fail as the code does. -/
def parseTranscriptUri (uri : String) : Except String (String × String) :=
  let p := urlparse uri
  if p.scheme = "s3" then
    .ok (p.netloc, ⟨p.path.data.dropWhile (fun c => c == '/')⟩)
  else if p.scheme = "https" && containsSubL "amazonaws.com".data p.netloc.data then
    if !s3HostMatch p.netloc.data then
      .error ("Invalid TranscriptFileUri netloc: " ++ p.netloc)
    else
      match splitOnSlash p.path.data with
      | _ :: b :: rest => .ok (⟨b⟩, ⟨joinSlash rest⟩)
      | _ => .error "list index out of range"
  else
    .error ("Invalid TranscriptFileUri scheme or netloc: " ++ uri)

/-! ### Supporting lemmas about the character-level parsers -/

theorem strData_append (s t : String) : (s ++ t).data = s.data ++ t.data := rfl

theorem startsWithL_self_append (p rest : List Char) :
    startsWithL p (p ++ rest) = true := by
  induction p with
  | nil => rfl
  | cons c cs ih => simp [startsWithL, ih]

theorem containsSubL_of_startsWith (pat l : List Char)
    (h : startsWithL pat l = true) : containsSubL pat l = true := by
  cases l with
  | nil => simpa [containsSubL] using h
  | cons c rest => simp [containsSubL, h]

theorem containsSubL_cons (pat : List Char) (c : Char) (rest : List Char)
    (h : containsSubL pat rest = true) : containsSubL pat (c :: rest) = true := by
  simp [containsSubL, h]

theorem containsSubL_append (pre pat post : List Char) :
    containsSubL pat (pre ++ (pat ++ post)) = true := by
  induction pre with
  | nil => exact containsSubL_of_startsWith _ _ (startsWithL_self_append pat post)
  | cons c cs ih => exact containsSubL_cons _ _ _ ih

theorem netlocSplit_append (l k : List Char)
    (hl : ∀ c ∈ l, ¬(c = '/' ∨ c = '?' ∨ c = '#')) :
    netlocSplit (l ++ '/' :: k) = (l, '/' :: k) := by
  induction l with
  | nil => rfl
  | cons c cs ih =>
    have hc : ¬(c = '/' ∨ c = '?' ∨ c = '#') := hl c (by simp)
    have ihh := ih (fun d hd => hl d (by simp [hd]))
    simp [netlocSplit, hc, ihh]

theorem splitFirst_none (sep : Char) (l : List Char) (h : ∀ c ∈ l, c ≠ sep) :
    splitFirst sep l = none := by
  induction l with
  | nil => rfl
  | cons c rest ih =>
    have hc : c ≠ sep := h c (by simp)
    have ihh := ih (fun d hd => h d (by simp [hd]))
    simp [splitFirst, hc, ihh]

theorem splitFirst_append (sep : Char) (a b : List Char)
    (h : ∀ c ∈ a, c ≠ sep) :
    splitFirst sep (a ++ sep :: b) = some (a, b) := by
  induction a with
  | nil => simp [splitFirst]
  | cons c rest ih =>
    have hc : c ≠ sep := h c (by simp)
    have ihh := ih (fun d hd => h d (by simp [hd]))
    simp [splitFirst, hc, ihh]

theorem fragSplit_id (l : List Char) (h : ∀ c ∈ l, c ≠ '#') :
    fragSplit l = (l, []) := by
  simp [fragSplit, splitFirst_none '#' l h]

theorem querySplit_id (l : List Char) (h : ∀ c ∈ l, c ≠ '?') :
    querySplit l = (l, []) := by
  simp [querySplit, splitFirst_none '?' l h]

theorem querySplit_append (a b : List Char) (h : ∀ c ∈ a, c ≠ '?') :
    querySplit (a ++ '?' :: b) = (a, b) := by
  simp [querySplit, splitFirst_append '?' a b h]

theorem mem_of_mem_takeWhileL (p : Char → Bool) (c : Char) :
    ∀ l : List Char, c ∈ l.takeWhile p → c ∈ l := by
  intro l
  induction l with
  | nil => simp [List.takeWhile]
  | cons d rest ih =>
    simp only [List.takeWhile]
    cases hp : p d with
    | true =>
      intro hc
      rcases List.mem_cons.mp hc with rfl | hc2
      · exact List.mem_cons_self _ _
      · exact List.mem_cons_of_mem _ (ih hc2)
    | false =>
      intro hc
      simp at hc

theorem paramsSplit_id (l : List Char) (h : ∀ c ∈ l, c ≠ ';') :
    paramsSplit l = (l, []) := by
  have hseg : ∀ c ∈ (l.reverse.takeWhile (fun c => c != '/')).reverse, c ≠ ';' := by
    intro c hc
    apply h
    exact List.mem_reverse.mp (mem_of_mem_takeWhileL _ _ _ (List.mem_reverse.mp hc))
  simp [paramsSplit, splitFirst_none ';' _ hseg]

theorem pathOfRest_plain (scheme : String) (rest : List Char)
    (h : ∀ c ∈ rest, c ≠ '#' ∧ c ≠ '?' ∧ c ≠ ';') :
    pathOfRest scheme rest = rest := by
  unfold pathOfRest
  simp only [fragSplit_id rest (fun c hc => (h c hc).1),
    querySplit_id rest (fun c hc => (h c hc).2.1)]
  split
  · rw [paramsSplit_id rest (fun c hc => (h c hc).2.2)]
  · rfl

theorem pathOfRest_query (scheme : String) (a b : List Char)
    (ha : ∀ c ∈ a, c ≠ '#' ∧ c ≠ '?' ∧ c ≠ ';')
    (hb : ∀ c ∈ b, c ≠ '#') :
    pathOfRest scheme (a ++ '?' :: b) = a := by
  unfold pathOfRest
  have hfrag : fragSplit (a ++ '?' :: b) = (a ++ '?' :: b, []) := by
    apply fragSplit_id
    intro c hc
    rcases List.mem_append.mp hc with h1 | h1
    · exact (ha c h1).1
    · rcases List.mem_cons.mp h1 with rfl | h2
      · decide
      · exact hb c h2
  simp only [hfrag, querySplit_append a b (fun c hc => (ha c hc).2.1)]
  split
  · rw [paramsSplit_id a (fun c hc => (ha c hc).2.2)]
  · rfl

theorem splitOnSlash_ne_nil (l : List Char) : splitOnSlash l ≠ [] := by
  cases l with
  | nil => simp [splitOnSlash]
  | cons c rest =>
    by_cases hc : c = '/'
    · simp [splitOnSlash, hc]
    · simp only [splitOnSlash, if_neg hc]
      cases h : splitOnSlash rest <;> simp

theorem splitOnSlash_append (l k : List Char) (hl : ∀ c ∈ l, c ≠ '/') :
    splitOnSlash (l ++ '/' :: k) = l :: splitOnSlash k := by
  induction l with
  | nil => simp [splitOnSlash]
  | cons c cs ih =>
    have hc : c ≠ '/' := hl c (by simp)
    have ihh := ih (fun d hd => hl d (by simp [hd]))
    simp [splitOnSlash, hc, ihh]

theorem joinSlash_splitOnSlash (l : List Char) :
    joinSlash (splitOnSlash l) = l := by
  induction l with
  | nil => rfl
  | cons c rest ih =>
    by_cases hc : c = '/'
    · subst hc
      obtain ⟨h, t, ht⟩ : ∃ h t, splitOnSlash rest = h :: t := by
        cases hsp : splitOnSlash rest with
        | nil => exact absurd hsp (splitOnSlash_ne_nil rest)
        | cons h t => exact ⟨h, t, rfl⟩
      rw [ht] at ih
      simp [splitOnSlash, ht, joinSlash, ih]
    · obtain ⟨h, t, ht⟩ : ∃ h t, splitOnSlash rest = h :: t := by
        cases hsp : splitOnSlash rest with
        | nil => exact absurd hsp (splitOnSlash_ne_nil rest)
        | cons h t => exact ⟨h, t, rfl⟩
      rw [ht] at ih
      cases t with
      | nil => simp [splitOnSlash, hc, ht, joinSlash] at ih ⊢; simp [ih]
      | cons y t2 =>
        simp only [splitOnSlash, if_neg hc, ht, joinSlash] at ih ⊢
        simp [ih]

theorem takeWhile_region (l rest : List Char) (hl : ∀ c ∈ l, isRegionChar c = true) :
    (l ++ '.' :: rest).takeWhile isRegionChar = l := by
  induction l with
  | nil =>
    have hdot : isRegionChar '.' = false := by decide
    simp [List.takeWhile, hdot]
  | cons c cs ih =>
    have hc : isRegionChar c = true := hl c (by simp)
    have ihh := ih (fun d hd => hl d (by simp [hd]))
    simp [List.takeWhile, hc, ihh]

theorem regionChar_not_stop (c : Char) (h : isRegionChar c = true) :
    ¬(c = '/' ∨ c = '?' ∨ c = '#') := by
  rintro (rfl | rfl | rfl) <;> simp [isRegionChar] at h

theorem dropWhile_no_head (l : List Char) (h : l.head? ≠ some '/') :
    l.dropWhile (fun c => c == '/') = l := by
  cases l with
  | nil => rfl
  | cons c rest =>
    have hc : c ≠ '/' := by intro he; exact h (by simp [he])
    have hb : (c == '/') = false := by simp [hc]
    simp [List.dropWhile, hb]

theorem schemeSplit_s3 (r : List Char) :
    schemeSplit ('s' :: '3' :: ':' :: '/' :: '/' :: r) = some (['s', '3'], r) := rfl

theorem schemeSplit_https (r : List Char) :
    schemeSplit ('h' :: 't' :: 't' :: 'p' :: 's' :: ':' :: '/' :: '/' :: r) =
      some (['h', 't', 't', 'p', 's'], r) := rfl

theorem urlparse_s3Form (B K : String)
    (hB : ∀ c ∈ B.data, ¬(c = '/' ∨ c = '?' ∨ c = '#'))
    (hK : ∀ c ∈ K.data, c ≠ '#' ∧ c ≠ '?' ∧ c ≠ ';') :
    urlparse ("s3://" ++ B ++ "/" ++ K) = ⟨"s3", B, ⟨'/' :: K.data⟩⟩ := by
  have hdata : ("s3://" ++ B ++ "/" ++ K).data =
      's' :: '3' :: ':' :: '/' :: '/' :: (B.data ++ '/' :: K.data) := by
    simp [strData_append]
  have hpath : pathOfRest ⟨lowerChars ['s', '3']⟩ ('/' :: K.data) = '/' :: K.data := by
    apply pathOfRest_plain
    intro c hc
    rcases List.mem_cons.mp hc with rfl | hc2
    · exact ⟨by decide, by decide, by decide⟩
    · exact hK c hc2
  simp only [urlparse, hdata, schemeSplit_s3, netlocSplit_append _ _ hB, hpath]
  rfl

theorem urlparse_s3Form_query (B K Q : String)
    (hB : ∀ c ∈ B.data, ¬(c = '/' ∨ c = '?' ∨ c = '#'))
    (hK : ∀ c ∈ K.data, c ≠ '#' ∧ c ≠ '?' ∧ c ≠ ';')
    (hQ : ∀ c ∈ Q.data, c ≠ '#') :
    urlparse ("s3://" ++ B ++ "/" ++ K ++ "?" ++ Q) = ⟨"s3", B, ⟨'/' :: K.data⟩⟩ := by
  have hdata : ("s3://" ++ B ++ "/" ++ K ++ "?" ++ Q).data =
      's' :: '3' :: ':' :: '/' :: '/' ::
        (B.data ++ '/' :: (K.data ++ '?' :: Q.data)) := by
    simp [strData_append]
  have ha : ∀ c ∈ ('/' :: K.data), c ≠ '#' ∧ c ≠ '?' ∧ c ≠ ';' := by
    intro c hc
    rcases List.mem_cons.mp hc with rfl | hc2
    · exact ⟨by decide, by decide, by decide⟩
    · exact hK c hc2
  have hpath : pathOfRest ⟨lowerChars ['s', '3']⟩ ('/' :: (K.data ++ '?' :: Q.data))
      = '/' :: K.data := by
    have h := pathOfRest_query ⟨lowerChars ['s', '3']⟩ ('/' :: K.data) Q.data ha hQ
    simpa using h
  simp only [urlparse, hdata, schemeSplit_s3, netlocSplit_append _ _ hB, hpath]
  rfl

theorem parse_s3_canonical (uri B K : String)
    (hup : urlparse uri = ⟨"s3", B, ⟨'/' :: K.data⟩⟩)
    (hKh : K.data.head? ≠ some '/') :
    parseTranscriptUri uri = .ok (B, K) := by
  have hslash : (('/' : Char) == '/') = true := by decide
  simp only [parseTranscriptUri, hup, if_pos rfl,
    List.dropWhile, hslash, dropWhile_no_head _ hKh]
  simp

theorem parse_s3Form (B K : String)
    (hB : ∀ c ∈ B.data, ¬(c = '/' ∨ c = '?' ∨ c = '#'))
    (hK : ∀ c ∈ K.data, c ≠ '#' ∧ c ≠ '?' ∧ c ≠ ';')
    (hKh : K.data.head? ≠ some '/') :
    parseTranscriptUri ("s3://" ++ B ++ "/" ++ K) = .ok (B, K) :=
  parse_s3_canonical _ B K (urlparse_s3Form B K hB hK) hKh

theorem parse_s3Form_query (B K Q : String)
    (hB : ∀ c ∈ B.data, ¬(c = '/' ∨ c = '?' ∨ c = '#'))
    (hK : ∀ c ∈ K.data, c ≠ '#' ∧ c ≠ '?' ∧ c ≠ ';')
    (hKh : K.data.head? ≠ some '/')
    (hQ : ∀ c ∈ Q.data, c ≠ '#') :
    parseTranscriptUri ("s3://" ++ B ++ "/" ++ K ++ "?" ++ Q) = .ok (B, K) :=
  parse_s3_canonical _ B K (urlparse_s3Form_query B K Q hB hK hQ) hKh

theorem urlparse_httpsForm (H B K : String)
    (hH : ∀ c ∈ H.data, ¬(c = '/' ∨ c = '?' ∨ c = '#'))
    (hP : ∀ c ∈ ('/' :: (B.data ++ '/' :: K.data)), c ≠ '#' ∧ c ≠ '?' ∧ c ≠ ';') :
    urlparse ("https://" ++ H ++ "/" ++ B ++ "/" ++ K) =
      ⟨"https", H, ⟨'/' :: (B.data ++ '/' :: K.data)⟩⟩ := by
  have hdata : ("https://" ++ H ++ "/" ++ B ++ "/" ++ K).data =
      'h' :: 't' :: 't' :: 'p' :: 's' :: ':' :: '/' :: '/' ::
        (H.data ++ '/' :: (B.data ++ '/' :: K.data)) := by
    simp [strData_append]
  have hpath : pathOfRest ⟨lowerChars ['h', 't', 't', 'p', 's']⟩
      ('/' :: (B.data ++ '/' :: K.data)) = '/' :: (B.data ++ '/' :: K.data) :=
    pathOfRest_plain _ _ hP
  simp only [urlparse, hdata, schemeSplit_https, netlocSplit_append _ _ hH, hpath]
  rfl

theorem urlparse_httpsForm_query (H B K Q : String)
    (hH : ∀ c ∈ H.data, ¬(c = '/' ∨ c = '?' ∨ c = '#'))
    (hP : ∀ c ∈ ('/' :: (B.data ++ '/' :: K.data)), c ≠ '#' ∧ c ≠ '?' ∧ c ≠ ';')
    (hQ : ∀ c ∈ Q.data, c ≠ '#') :
    urlparse ("https://" ++ H ++ "/" ++ B ++ "/" ++ K ++ "?" ++ Q) =
      ⟨"https", H, ⟨'/' :: (B.data ++ '/' :: K.data)⟩⟩ := by
  have hdata : ("https://" ++ H ++ "/" ++ B ++ "/" ++ K ++ "?" ++ Q).data =
      'h' :: 't' :: 't' :: 'p' :: 's' :: ':' :: '/' :: '/' ::
        (H.data ++ '/' :: (B.data ++ '/' :: (K.data ++ '?' :: Q.data))) := by
    simp [strData_append]
  have hpath : pathOfRest ⟨lowerChars ['h', 't', 't', 'p', 's']⟩
      ('/' :: (B.data ++ '/' :: (K.data ++ '?' :: Q.data)))
      = '/' :: (B.data ++ '/' :: K.data) := by
    have h := pathOfRest_query ⟨lowerChars ['h', 't', 't', 'p', 's']⟩
      ('/' :: (B.data ++ '/' :: K.data)) Q.data hP hQ
    simpa using h
  simp only [urlparse, hdata, schemeSplit_https, netlocSplit_append _ _ hH, hpath]
  rfl

theorem canonHost_data (region : String) :
    ("s3." ++ region ++ ".amazonaws.com").data =
      's' :: '3' :: '.' :: (region.data ++ '.' :: "amazonaws.com".data) := by
  simp [strData_append]

theorem canonHost_no_stop (region : String)
    (hr2 : ∀ c ∈ region.data, isRegionChar c = true) :
    ∀ c ∈ ("s3." ++ region ++ ".amazonaws.com").data,
      ¬(c = '/' ∨ c = '?' ∨ c = '#') := by
  intro c hc
  rw [canonHost_data] at hc
  simp only [List.mem_cons, List.mem_append] at hc
  rcases hc with h | h | h | h
  · subst h; decide
  · subst h; decide
  · subst h; decide
  · rcases h with h | h
    · exact regionChar_not_stop c (hr2 c h)
    · rcases h with h | h
      · subst h; decide
      · rintro (rfl | rfl | rfl) <;> revert h <;> decide

theorem canonHost_regexMatch (region : String) (hr1 : region.data ≠ [])
    (hr2 : ∀ c ∈ region.data, isRegionChar c = true) :
    s3HostMatch ("s3." ++ region ++ ".amazonaws.com").data = true := by
  rw [canonHost_data]
  have h1 : startsWithL ['s', '3', '.']
      ('s' :: '3' :: '.' :: (region.data ++ '.' :: "amazonaws.com".data)) = true :=
    startsWithL_self_append ['s', '3', '.'] _
  have h2 : (region.data ++ '.' :: "amazonaws.com".data).takeWhile isRegionChar
      = region.data := takeWhile_region _ _ hr2
  have h3 : (region.data ++ '.' :: "amazonaws.com".data).drop region.data.length
      = '.' :: "amazonaws.com".data := List.drop_left _ _
  have h4 : startsWithL ".amazonaws.com".data ('.' :: "amazonaws.com".data) = true := by
    simpa using startsWithL_self_append ".amazonaws.com".data []
  have h5 : region.data.isEmpty = false := by
    cases h : region.data with
    | nil => exact absurd h hr1
    | cons a l => rfl
  simp only [s3HostMatch, h1, if_pos rfl, List.drop, h2, h3, h4, h5]
  rfl

theorem canonHost_hasSub (region : String) :
    containsSubL "amazonaws.com".data ("s3." ++ region ++ ".amazonaws.com").data
      = true := by
  rw [canonHost_data]
  have h := containsSubL_append ('s' :: '3' :: '.' :: (region.data ++ ['.']))
    "amazonaws.com".data []
  simpa [List.append_assoc] using h

theorem parse_https_canonical (uri B K region : String)
    (hup : urlparse uri = ⟨"https", "s3." ++ region ++ ".amazonaws.com",
      ⟨'/' :: (B.data ++ '/' :: K.data)⟩⟩)
    (hB : ∀ c ∈ B.data, c ≠ '/')
    (hr1 : region.data ≠ []) (hr2 : ∀ c ∈ region.data, isRegionChar c = true) :
    parseTranscriptUri uri = .ok (B, K) := by
  have hsp : splitOnSlash ('/' :: (B.data ++ '/' :: K.data))
      = [] :: B.data :: splitOnSlash K.data := by
    have h2 : splitOnSlash (B.data ++ '/' :: K.data) = B.data :: splitOnSlash K.data :=
      splitOnSlash_append _ _ hB
    simp [splitOnSlash, h2]
  have hne : ("https" : String) ≠ "s3" := by decide
  simp only [parseTranscriptUri, hup, if_neg hne, canonHost_hasSub region,
    canonHost_regexMatch region hr1 hr2, Bool.and_true, Bool.not_true, if_pos rfl,
    Bool.and_self, hsp, joinSlash_splitOnSlash]
  simp

theorem cleanPath_chars (B K : String)
    (hB : ∀ c ∈ B.data, ¬(c = '/' ∨ c = '?' ∨ c = '#') ∧ c ≠ ';')
    (hK : ∀ c ∈ K.data, c ≠ '#' ∧ c ≠ '?' ∧ c ≠ ';') :
    ∀ c ∈ ('/' :: (B.data ++ '/' :: K.data)), c ≠ '#' ∧ c ≠ '?' ∧ c ≠ ';' := by
  intro c hc
  rcases List.mem_cons.mp hc with rfl | hc2
  · exact ⟨by decide, by decide, by decide⟩
  · rcases List.mem_append.mp hc2 with h1 | h1
    · obtain ⟨hno, hsemi⟩ := hB c h1
      exact ⟨fun he => hno (Or.inr (Or.inr he)), fun he => hno (Or.inr (Or.inl he)), hsemi⟩
    · rcases List.mem_cons.mp h1 with rfl | h2
      · exact ⟨by decide, by decide, by decide⟩
      · exact hK c h2

theorem parse_httpsForm (B K region : String)
    (hB : ∀ c ∈ B.data, ¬(c = '/' ∨ c = '?' ∨ c = '#') ∧ c ≠ ';')
    (hK : ∀ c ∈ K.data, c ≠ '#' ∧ c ≠ '?' ∧ c ≠ ';')
    (hr1 : region.data ≠ []) (hr2 : ∀ c ∈ region.data, isRegionChar c = true) :
    parseTranscriptUri
        ("https://" ++ ("s3." ++ region ++ ".amazonaws.com") ++ "/" ++ B ++ "/" ++ K)
      = .ok (B, K) := by
  have hup := urlparse_httpsForm ("s3." ++ region ++ ".amazonaws.com") B K
    (canonHost_no_stop region hr2) (cleanPath_chars B K hB hK)
  exact parse_https_canonical _ B K region hup
    (fun c hc he => (hB c hc).1 (Or.inl he)) hr1 hr2

theorem parse_httpsForm_query (B K Q region : String)
    (hB : ∀ c ∈ B.data, ¬(c = '/' ∨ c = '?' ∨ c = '#') ∧ c ≠ ';')
    (hK : ∀ c ∈ K.data, c ≠ '#' ∧ c ≠ '?' ∧ c ≠ ';')
    (hQ : ∀ c ∈ Q.data, c ≠ '#')
    (hr1 : region.data ≠ []) (hr2 : ∀ c ∈ region.data, isRegionChar c = true) :
    parseTranscriptUri
        ("https://" ++ ("s3." ++ region ++ ".amazonaws.com") ++ "/" ++ B ++ "/" ++ K
          ++ "?" ++ Q)
      = .ok (B, K) := by
  have hup := urlparse_httpsForm_query ("s3." ++ region ++ ".amazonaws.com") B K Q
    (canonHost_no_stop region hr2) (cleanPath_chars B K hB hK) hQ
  exact parse_https_canonical _ B K region hup
    (fun c hc he => (hB c hc).1 (Or.inl he)) hr1 hr2

theorem parse_other_scheme (uri : String) (h1 : (urlparse uri).scheme ≠ "s3")
    (h2 : (urlparse uri).scheme ≠ "https") :
    parseTranscriptUri uri
      = .error ("Invalid TranscriptFileUri scheme or netloc: " ++ uri) := by
  simp only [parseTranscriptUri, if_neg h1]
  rw [if_neg]
  intro h
  simp only [Bool.and_eq_true, decide_eq_true_eq] at h
  exact h2 h.1

theorem parse_https_bad_host (uri : String) (h1 : (urlparse uri).scheme = "https")
    (h2 : s3HostMatch (urlparse uri).netloc.data = false) :
    ∃ e, parseTranscriptUri uri = .error e := by
  have hns : (urlparse uri).scheme ≠ "s3" := by rw [h1]; decide
  by_cases hc : containsSubL "amazonaws.com".data (urlparse uri).netloc.data = true
  · refine ⟨"Invalid TranscriptFileUri netloc: " ++ (urlparse uri).netloc, ?_⟩
    simp [parseTranscriptUri, hns, h1, hc, h2]
  · refine ⟨"Invalid TranscriptFileUri scheme or netloc: " ++ uri, ?_⟩
    simp only [parseTranscriptUri, if_neg hns]
    rw [if_neg]
    intro h
    simp only [Bool.and_eq_true] at h
    exact hc h.2

/-! ## Audio transcoding strategies (main.py:199-219, interview.py:204-212) -/

/-- A transcoding strategy: the codec library (pydub) or the external codec
tool (ffmpeg subprocess). -/
inductive Strategy
  | library
  | tool
  deriving Repr, DecidableEq

/-- main.py:210 — the argument list of the external-tool fallback invocation,
with explicit mono (`-ac 1`) and 16kHz (`-ar 16000`) normalization. -/
def ffmpegCmd (inp outp : String) : List String :=
  ["ffmpeg", "-i", inp, "-acodec", "pcm_s16le", "-ac", "1", "-ar", "16000", outp, "-y"]

/-- main.py:199-219 — the inbound webhook OGG→WAV conversion: try the codec
library; on its failure try the external tool; propagate the tool's failure
if both fail.  The second component records which strategies were invoked,
in order. -/
def webhookOggToWav (pydubRes ffmpegRes : Except String Unit) :
    Except String Unit × List Strategy :=
  match pydubRes with
  | .ok _ => (.ok (), [.library])
  | .error _ =>
    match ffmpegRes with
    | .ok _ => (.ok (), [.library, .tool])
    | .error e => (.error e, [.library, .tool])

/-- interview.py:204-212 — the voice-reply MP3→OGG conversion inside the
pipeline's synthesis step: only the codec library is tried; its failure is
wrapped and re-raised, with no external-tool fallback. -/
def synthesisMp3ToOgg (pydubRes : Except String Unit) :
    Except String Unit × List Strategy :=
  match pydubRes with
  | .ok _ => (.ok (), [.library])
  | .error e => (.error ("Failed to convert MP3 to OGG: " ++ e), [.library])

/-! ## The interview pipeline (interview.py `handle_interview`)

The pipeline is embedded as a state-passing function over a world holding
the local filesystem (set of existing paths), the remote object store
(set of (bucket, key) objects this code uploads), and a trace of the S3
calls performed.  External collaborators are an oracle record; the fresh
uuid4 names are parameters. -/

/-- S3 calls the pipeline performs, in order. -/
inductive S3Effect
  | uploads3 (bucket key : String)
  | heads3 (bucket key : String)
  | downloads3 (bucket key : String)
  | deletes3 (bucket key : String)
  deriving Repr, DecidableEq

/-- Local filesystem, remote object store and S3 call trace. -/
structure PWorld where
  fs : List String
  store : List (String × String)
  trace : List S3Effect
  deriving Repr, DecidableEq

/-- Outcome of one `s3.head_object` call (interview.py:148-158). -/
inductive HeadRes
  | okRes
  | notFound
  | errRes (msg : String)
  deriving Repr, DecidableEq

/-- The pipeline's response dict: `{"text": ..., "audio_url"?: ...}`. -/
structure RespData where
  text : String
  audio_url : Option String
  deriving Repr, DecidableEq

/-- Behaviour of every external collaborator call `handle_interview` makes. -/
structure PipeOracle where
  audioSize : Nat
  uploadAudio : Except String Unit
  startJob : Except String Unit
  pollStatus : Nat → String
  failureReason : Option String
  transcriptUri : Option String
  headAttempt : Nat → HeadRes
  downloadTranscript : Except String Unit
  transcripts : List String
  bedrockAnswer : String → Except String String
  elevenConfigured : Bool
  synthWrites : Bool
  synthRes : Except String Unit
  convertWrites : Bool
  convertRes : Except String Unit
  uploadOgg : Except String Unit
  deleteAudioOk : Bool
  deleteTranscriptOk : Bool

/-- The fresh `uuid.uuid4()` values drawn in one invocation. -/
structure PipeNames where
  u1 : String
  u2 : String
  u3 : String
  u4 : String
  u5 : String

/-- The local variables interview.py's `finally` block reads (lines 62-66,
set along the way). -/
structure IVars where
  audio_key : Option String
  transcript_file : Option String
  output_audio : Option String
  output_ogg : Option String
  transcript_key : Option String
  deriving Repr, DecidableEq

def noVars : IVars := ⟨none, none, none, none, none⟩

/-- interview.py:61 — the configured bucket. -/
def bucketName : String := "chatbotbucket-vkt"

/-- Python `path.split(".")` on a character list. -/
def splitOnDot : List Char → List (List Char)
  | [] => [[]]
  | c :: rest =>
    if c = '.' then [] :: splitOnDot rest
    else
      match splitOnDot rest with
      | [] => [[c]]
      | h :: t => (c :: h) :: t

/-- Python `path.split(".")[-1]`. -/
def extOf (path : String) : String := ⟨(splitOnDot path.data).getLastD []⟩

/-- Python `str.lower()` (ASCII). -/
def pyLower (s : String) : String := ⟨lowerChars s.data⟩

/-- interview.py:175 — the fixed-persona prompt. -/
def promptFor (question : String) : String :=
  "You are a DevOps technical interview bot. You are also a DevOps expert with DevOps knowledge. "
    ++ question

/-- interview.py:104-113 — the transcription poll loop: poll, break on a
terminal status, else sleep and retry; at most `fuel + 1` polls.  The code
runs it with `max_attempts = 60`, i.e. `fuel = 59`.  After the loop the last
observed status is what the code goes on to inspect — there is no timeout
branch. -/
def pollJob (poll : Nat → String) : Nat → Nat → String
  | attempt, fuel =>
    let st := poll attempt
    if st = "COMPLETED" || st = "FAILED" then st
    else
      match fuel with
      | 0 => st
      | f + 1 => pollJob poll (attempt + 1) f

/-- interview.py:145-158 — the transcript existence-check retry loop
(`max_retries = 3`): break on success, re-raise a non-404 error, retry a 404
and give up with "Transcript file not found on S3" on the last attempt.
Returns the outcome and the number of `head_object` calls made. -/
def headLoop (head : Nat → HeadRes) : Nat → Nat → Except String Unit × Nat
  | 0, _ => (.error "Transcript file not found on S3", 0)
  | fuel + 1, attempt =>
    match head attempt with
    | .okRes => (.ok (), 1)
    | .errRes m => (.error m, 1)
    | .notFound =>
      if attempt = 2 then (.error "Transcript file not found on S3", 1)
      else
        let r := headLoop head fuel (attempt + 1)
        (r.1, r.2 + 1)

/-- interview.py:86 — the fresh source-audio key `audio/<uuid>.<ext>`. -/
def audioKeyOf (ns : PipeNames) (ap : String) : String :=
  "audio/" ++ ns.u1 ++ "." ++ extOf ap

/-- interview.py:161 — the local transcript temp file `/tmp/<uuid>.json`. -/
def transcriptFileOf (ns : PipeNames) : String := "/tmp/" ++ ns.u2 ++ ".json"

/-- interview.py:194 — the local synthesized MP3 `/tmp/<uuid>.mp3`. -/
def outputAudioOf (ns : PipeNames) : String := "/tmp/" ++ ns.u3 ++ ".mp3"

/-- interview.py:204 — the local transcoded OGG `/tmp/<uuid>.ogg`. -/
def outputOggOf (ns : PipeNames) : String := "/tmp/" ++ ns.u4 ++ ".ogg"

/-- interview.py:215 — the reply-audio key `audio/output/<uuid>.ogg`. -/
def outputKeyOf (ns : PipeNames) : String := "audio/output/" ++ ns.u5 ++ ".ogg"

/-- interview.py:223 — the public URL of the reply-audio object. -/
def outputUrlOf (ns : PipeNames) : String :=
  "https://" ++ bucketName ++ ".s3.ap-southeast-2.amazonaws.com/" ++ outputKeyOf ns

/-- World after the source-audio upload (interview.py:88). -/
def wUploaded (ns : PipeNames) (ap : String) (w : PWorld) : PWorld :=
  { w with store := (bucketName, audioKeyOf ns ap) :: w.store,
           trace := w.trace ++ [.uploads3 bucketName (audioKeyOf ns ap)] }

/-- Cleanup variables after the source-audio upload key is assigned. -/
def vUploaded (ns : PipeNames) (ap : String) : IVars :=
  { noVars with audio_key := some (audioKeyOf ns ap) }

/-- World after `n` head_object existence checks on the transcript. -/
def wHeads (tk : String) (n : Nat) (w : PWorld) : PWorld :=
  { w with trace := w.trace ++ List.replicate n (.heads3 bucketName tk) }

/-- World after the transcript download call is issued. -/
def wDl (tk : String) (w : PWorld) : PWorld :=
  { w with trace := w.trace ++ [.downloads3 bucketName tk] }

/-- World after the transcript file is written locally. -/
def wTf (ns : PipeNames) (w : PWorld) : PWorld :=
  { w with fs := transcriptFileOf ns :: w.fs }

/-- Cleanup variables after `transcript_file` is assigned. -/
def vTf (ns : PipeNames) (v : IVars) : IVars :=
  { v with transcript_file := some (transcriptFileOf ns) }

/-- World after the synthesizer wrote (or failed to write) the MP3. -/
def wSynth (o : PipeOracle) (ns : PipeNames) (w : PWorld) : PWorld :=
  if o.synthWrites then { w with fs := outputAudioOf ns :: w.fs } else w

/-- World after the transcoder wrote (or failed to write) the OGG. -/
def wConv (o : PipeOracle) (ns : PipeNames) (w : PWorld) : PWorld :=
  if o.convertWrites then { w with fs := outputOggOf ns :: w.fs } else w

/-- World after the reply-audio upload (interview.py:217). -/
def wOggUp (ns : PipeNames) (w : PWorld) : PWorld :=
  { w with store := (bucketName, outputKeyOf ns) :: w.store,
           trace := w.trace ++ [.uploads3 bucketName (outputKeyOf ns)] }

/-- Cleanup variables after `output_audio` is assigned. -/
def vOa (ns : PipeNames) (v : IVars) : IVars :=
  { v with output_audio := some (outputAudioOf ns) }

/-- Cleanup variables after `output_ogg` is assigned. -/
def vOg (ns : PipeNames) (v : IVars) : IVars :=
  { v with output_ogg := some (outputOggOf ns) }

/-- interview.py:75-142 — validate the audio file, upload it to S3, start
the transcription job, poll it, resolve the transcript location and check
the bucket.  On success returns the transcript key. -/
def transcribeStage (o : PipeOracle) (ns : PipeNames) (ap : String) (w : PWorld) :
    PWorld × IVars × Except String String :=
  if o.audioSize < 1000 then
    (w, noVars, .error "Audio file is too small or invalid")
  else if !(pyLower (extOf ap) == "wav" || pyLower (extOf ap) == "mp3") then
    (w, noVars, .error "Unsupported audio format. Supported: ['wav', 'mp3']")
  else
    match o.uploadAudio with
    | .error e => (w, vUploaded ns ap, .error e)
    | .ok _ =>
      match o.startJob with
      | .error e => (wUploaded ns ap w, vUploaded ns ap, .error e)
      | .ok _ =>
        if pollJob o.pollStatus 0 59 = "FAILED" then
          (wUploaded ns ap w, vUploaded ns ap,
            .error ("Transcription job failed: " ++ o.failureReason.getD "Unknown"))
        else
          match o.transcriptUri with
          | none => (wUploaded ns ap w, vUploaded ns ap,
              .error "TranscriptFileUri not found in Transcribe response")
          | some uri =>
            match parseTranscriptUri uri with
            | .error e => (wUploaded ns ap w, vUploaded ns ap, .error e)
            | .ok (tb, tk) =>
              if tb ≠ bucketName then
                (wUploaded ns ap w,
                  { vUploaded ns ap with transcript_key := some tk },
                  .error ("Transcript bucket mismatch: expected " ++ bucketName
                    ++ ", got " ++ tb))
              else
                (wUploaded ns ap w,
                  { vUploaded ns ap with transcript_key := some tk }, .ok tk)

/-- interview.py:144-169 — retry the existence check of the transcript
object, download it and extract the first transcript as the question. -/
def fetchStage (o : PipeOracle) (ns : PipeNames) (tk : String) (w : PWorld)
    (v : IVars) : PWorld × IVars × Except String String :=
  match (headLoop o.headAttempt 3 0).1 with
  | .error e => (wHeads tk (headLoop o.headAttempt 3 0).2 w, v, .error e)
  | .ok _ =>
    match o.downloadTranscript with
    | .error e => (wDl tk (wHeads tk (headLoop o.headAttempt 3 0).2 w), vTf ns v,
        .error e)
    | .ok _ =>
      match o.transcripts with
      | [] => (wTf ns (wDl tk (wHeads tk (headLoop o.headAttempt 3 0).2 w)), vTf ns v,
          .error "No transcript generated")
      | q :: _ => (wTf ns (wDl tk (wHeads tk (headLoop o.headAttempt 3 0).2 w)),
          vTf ns v, .ok q)

/-- interview.py:192-224 — synthesize the reply with ElevenLabs, transcode
MP3→OGG and upload the reply audio. -/
def synthStage (o : PipeOracle) (ns : PipeNames) (answer : String) (w : PWorld)
    (v : IVars) : PWorld × IVars × Except String RespData :=
  if !o.elevenConfigured then
    (w, vOa ns v, .error "ElevenLabs API key or voice ID not configured")
  else
    match o.synthRes with
    | .error e => (wSynth o ns w, vOa ns v, .error e)
    | .ok _ =>
      match (synthesisMp3ToOgg o.convertRes).1 with
      | .error e => (wConv o ns (wSynth o ns w), vOg ns (vOa ns v), .error e)
      | .ok _ =>
        match o.uploadOgg with
        | .error e => (wConv o ns (wSynth o ns w), vOg ns (vOa ns v), .error e)
        | .ok _ => (wOggUp ns (wConv o ns (wSynth o ns w)), vOg ns (vOa ns v),
            .ok ⟨answer, some (outputUrlOf ns)⟩)

/-- interview.py:75-226, audio branch — the three stages composed with the
Bedrock answer generation in between. -/
def audioFlow (o : PipeOracle) (ns : PipeNames) (ap : String) (w : PWorld) :
    PWorld × IVars × Except String RespData :=
  match transcribeStage o ns ap w with
  | (w1, v1, .error e) => (w1, v1, .error e)
  | (w1, v1, .ok tk) =>
    match fetchStage o ns tk w1 v1 with
    | (w2, v2, .error e) => (w2, v2, .error e)
    | (w2, v2, .ok q) =>
      match o.bedrockAnswer (promptFor q) with
      | .error e => (w2, v2, .error e)
      | .ok answer => synthStage o ns answer w2 v2

/-- interview.py:170-191, text branch — pass the text through to Bedrock. -/
def textFlow (o : PipeOracle) (ti : String) (w : PWorld) :
    PWorld × IVars × Except String RespData :=
  match o.bedrockAnswer (promptFor ti) with
  | .error e => (w, noVars, .error e)
  | .ok answer => (w, noVars, .ok { text := answer, audio_url := none })

/-- One `os.remove`-guarded-by-`os.path.exists` step of the `finally` block,
guarded by the Python truthiness of the variable. -/
def rmLocal : Option String → List String → List String
  | none, fs => fs
  | some q, fs =>
    if pyTruthyStr q && decide (q ∈ fs) then fs.filter (fun r => r != q) else fs

/-- One best-effort `s3.delete_object` step of the `finally` block: the call
is made when the key variable is truthy; a failure is swallowed. -/
def delObject : Bool → Option String → PWorld → PWorld
  | _, none, w => w
  | ok, some k, w =>
    if pyTruthyStr k then
      let w1 := { w with trace := w.trace ++ [.deletes3 bucketName k] }
      if ok then { w1 with store := w1.store.filter (fun bk => bk != (bucketName, k)) }
      else w1
    else w

/-- interview.py:231-256 — the `finally` block: remove every local temporary
file that was assigned and still exists, then best-effort delete the
uploaded source audio and the transcript object. -/
def pipelineCleanup (o : PipeOracle) (audio_path : Option String) (v : IVars)
    (w : PWorld) : PWorld :=
  let w1 := { w with fs := rmLocal audio_path w.fs }
  let w2 := { w1 with fs := rmLocal v.transcript_file w1.fs }
  let w3 := { w2 with fs := rmLocal v.output_audio w2.fs }
  let w4 := { w3 with fs := rmLocal v.output_ogg w3.fs }
  let w5 := delObject o.deleteAudioOk v.audio_key w4
  delObject o.deleteTranscriptOk v.transcript_key w5

/-- interview.py:228-230 — the top-level `except` wraps any failure as a
ProcessingError with the cause text preserved. -/
def wrapRes : Except String RespData → Except String RespData
  | .ok d => .ok d
  | .error e => .error ("Processing error: " ++ e)

/-- interview.py:67-226 — the `try` body: validate the inputs (with Python
truthiness) and run the audio or the text flow. -/
def interviewBody (o : PipeOracle) (ns : PipeNames)
    (audio_path text_input : Option String) (w : PWorld) :
    PWorld × IVars × Except String RespData :=
  if pyTruthyStrO audio_path && pyTruthyStrO text_input then
    (w, noVars, Except.error "Provide either audio_path or text_input, not both")
  else if !pyTruthyStrO audio_path && !pyTruthyStrO text_input then
    (w, noVars, Except.error "Either audio_path or text_input is required")
  else if pyTruthyStrO audio_path then
    audioFlow o ns (audio_path.getD "") w
  else
    textFlow o (text_input.getD "") w

/-- interview.py:60-256 — `handle_interview`: run the body, wrap any
failure as a ProcessingError, and always run the cleanup block.  Returns
the final world, the variables the cleanup saw, and the result. -/
def handleInterview (o : PipeOracle) (ns : PipeNames)
    (audio_path text_input : Option String) (w : PWorld) :
    PWorld × IVars × Except String RespData :=
  (pipelineCleanup o audio_path (interviewBody o ns audio_path text_input w).2.1
      (interviewBody o ns audio_path text_input w).1,
    (interviewBody o ns audio_path text_input w).2.1,
    wrapRes (interviewBody o ns audio_path text_input w).2.2)

/-! ### Supporting lemmas about the pipeline's cleanup block -/

theorem delObject_fs (ok : Bool) (k : Option String) (w : PWorld) :
    (delObject ok k w).fs = w.fs := by
  cases k with
  | none => rfl
  | some s =>
    by_cases h : pyTruthyStr s = true
    · cases ok <;> simp [delObject, h]
    · simp [delObject, h]

theorem cleanup_fs (o : PipeOracle) (ap : Option String) (v : IVars) (w : PWorld) :
    (pipelineCleanup o ap v w).fs =
      rmLocal v.output_ogg (rmLocal v.output_audio (rmLocal v.transcript_file
        (rmLocal ap w.fs))) := by
  unfold pipelineCleanup
  simp [delObject_fs]

theorem rmLocal_subset (p : Option String) (fs : List String) :
    ∀ q ∈ rmLocal p fs, q ∈ fs := by
  intro q hq
  cases p with
  | none => exact hq
  | some s =>
    simp only [rmLocal] at hq
    by_cases h : (pyTruthyStr s && decide (s ∈ fs)) = true
    · rw [if_pos h] at hq
      exact (List.mem_filter.mp hq).1
    · rwa [if_neg h] at hq

theorem rmLocal_not_mem_self (p : String) (fs : List String)
    (hp : pyTruthyStr p = true) : p ∉ rmLocal (some p) fs := by
  intro hmem
  simp only [rmLocal] at hmem
  by_cases h : p ∈ fs
  · rw [if_pos (by simp [hp, h])] at hmem
    have := (List.mem_filter.mp hmem).2
    simp at this
  · rw [if_neg (by simp [h])] at hmem
    exact h hmem

theorem rmLocal_not_mem (p : Option String) (q : String) (fs : List String)
    (hq : q ∉ fs) : q ∉ rmLocal p fs :=
  fun hmem => hq (rmLocal_subset p fs q hmem)

theorem tmp_truthy (pre u sfx : String) (hpre : pre.data ≠ []) :
    pyTruthyStr (pre ++ u ++ sfx) = true := by
  have hne : (pre ++ u ++ sfx) ≠ "" := by
    intro h
    have hd := congrArg String.data h
    rw [strData_append, strData_append] at hd
    simp at hd
    exact hpre hd.1
  simpa [pyTruthyStr] using hne

theorem delObject_trace_mem (ok : Bool) (k : Option String) (w : PWorld)
    (e : S3Effect) (he : e ∈ (delObject ok k w).trace) :
    e ∈ w.trace ∨ ∃ kk, e = .deletes3 bucketName kk := by
  cases k with
  | none => exact .inl he
  | some s =>
    simp only [delObject] at he
    by_cases h : pyTruthyStr s = true
    · rw [if_pos h] at he
      cases ok <;> simp_all [List.mem_append] <;> tauto
    · rw [if_neg h] at he
      exact .inl he

theorem cleanup_trace_mem (o : PipeOracle) (ap : Option String) (v : IVars)
    (w : PWorld) (e : S3Effect) (he : e ∈ (pipelineCleanup o ap v w).trace) :
    e ∈ w.trace ∨ ∃ kk, e = .deletes3 bucketName kk := by
  unfold pipelineCleanup at he
  have h1 := delObject_trace_mem _ _ _ _ he
  rcases h1 with h1 | h1
  · have h2 := delObject_trace_mem _ _ _ _ h1
    rcases h2 with h2 | h2
    · exact .inl h2
    · exact .inr h2
  · exact .inr h1

theorem delObject_store_sub (ok : Bool) (k : Option String) (w : PWorld) :
    ∀ x ∈ (delObject ok k w).store, x ∈ w.store := by
  intro x hx
  cases k with
  | none => exact hx
  | some s =>
    simp only [delObject] at hx
    by_cases h : pyTruthyStr s = true
    · rw [if_pos h] at hx
      cases ok with
      | true => exact (List.mem_filter.mp hx).1
      | false => exact hx
    · rwa [if_neg h] at hx

theorem delObject_store_mem (ok : Bool) (k : Option String) (w : PWorld)
    (x : String × String) (hx : x ∈ w.store)
    (hne : ∀ s, k = some s → x ≠ (bucketName, s)) :
    x ∈ (delObject ok k w).store := by
  cases k with
  | none => exact hx
  | some s =>
    simp only [delObject]
    by_cases h : pyTruthyStr s = true
    · rw [if_pos h]
      cases ok with
      | true =>
        refine List.mem_filter.mpr ⟨hx, ?_⟩
        simp only [bne_iff_ne, ne_eq, decide_eq_true_eq]
        exact hne s rfl
      | false => exact hx
    · rwa [if_neg h]

theorem delObject_store_not_mem_deleted (okk : Bool) (s : String) (w : PWorld)
    (hok : okk = true) (hs : pyTruthyStr s = true) :
    (bucketName, s) ∉ (delObject okk (some s) w).store := by
  subst hok
  intro hmem
  simp only [delObject] at hmem
  rw [if_pos hs] at hmem
  have := (List.mem_filter.mp hmem).2
  simp at this

/-! ### Stage characterization lemmas -/

theorem transcribeStage_fs (o : PipeOracle) (ns : PipeNames) (ap : String)
    (w : PWorld) : (transcribeStage o ns ap w).1.fs = w.fs := by
  unfold transcribeStage
  repeat' split
  all_goals simp [wUploaded]

theorem transcribeStage_vars (o : PipeOracle) (ns : PipeNames) (ap : String)
    (w : PWorld) :
    (transcribeStage o ns ap w).2.1.transcript_file = none ∧
    (transcribeStage o ns ap w).2.1.output_audio = none ∧
    (transcribeStage o ns ap w).2.1.output_ogg = none := by
  unfold transcribeStage
  repeat' split
  all_goals simp [vUploaded, noVars]

theorem transcribeStage_trace (o : PipeOracle) (ns : PipeNames) (ap : String)
    (w : PWorld) (e : S3Effect) (he : e ∈ (transcribeStage o ns ap w).1.trace) :
    e ∈ w.trace ∨ e = .uploads3 bucketName (audioKeyOf ns ap) := by
  revert he
  unfold transcribeStage
  repeat' split
  all_goals intro he
  all_goals simp_all [wUploaded, List.mem_append]

theorem transcribeStage_ok_parse (o : PipeOracle) (ns : PipeNames) (ap : String)
    (w : PWorld) (tk : String) (h : (transcribeStage o ns ap w).2.2 = .ok tk) :
    ∃ uri, o.transcriptUri = some uri ∧ parseTranscriptUri uri = .ok (bucketName, tk) := by
  revert h
  unfold transcribeStage
  repeat' split
  all_goals intro h
  all_goals simp_all

theorem transcribeStage_ok_char (o : PipeOracle) (ns : PipeNames) (ap : String)
    (w : PWorld) (tk : String) (h : (transcribeStage o ns ap w).2.2 = .ok tk) :
    (transcribeStage o ns ap w).1 = wUploaded ns ap w ∧
    (transcribeStage o ns ap w).2.1 =
      ⟨some (audioKeyOf ns ap), none, none, none, some tk⟩ := by
  revert h
  unfold transcribeStage
  repeat' split
  all_goals intro h
  all_goals simp_all [vUploaded, noVars]

theorem fetchStage_store (o : PipeOracle) (ns : PipeNames) (tk : String)
    (w : PWorld) (v : IVars) :
    (fetchStage o ns tk w v).1.store = w.store ∧
    (fetchStage o ns tk w v).2.1.audio_key = v.audio_key ∧
    (fetchStage o ns tk w v).2.1.transcript_key = v.transcript_key ∧
    (fetchStage o ns tk w v).2.1.output_audio = v.output_audio ∧
    (fetchStage o ns tk w v).2.1.output_ogg = v.output_ogg := by
  unfold fetchStage
  repeat' split
  all_goals simp [wHeads, wDl, wTf, vTf]

theorem fetchStage_fs (o : PipeOracle) (ns : PipeNames) (tk : String)
    (w : PWorld) (v : IVars) (p : String)
    (hp : p ∈ (fetchStage o ns tk w v).1.fs) (hnp : p ∉ w.fs) :
    (fetchStage o ns tk w v).2.1.transcript_file = some p ∧
      p = transcriptFileOf ns := by
  revert hp
  unfold fetchStage
  repeat' split
  all_goals intro hp
  all_goals simp_all [wHeads, wDl, wTf, vTf]

theorem synthStage_fs (o : PipeOracle) (ns : PipeNames) (answer : String)
    (w : PWorld) (v : IVars) (p : String)
    (hp : p ∈ (synthStage o ns answer w v).1.fs) (hnp : p ∉ w.fs) :
    ((synthStage o ns answer w v).2.1.output_audio = some p ∧ p = outputAudioOf ns) ∨
    ((synthStage o ns answer w v).2.1.output_ogg = some p ∧ p = outputOggOf ns) := by
  revert hp
  unfold synthStage wSynth wConv
  repeat' split
  all_goals intro hp
  all_goals simp_all [wOggUp, vOa, vOg]
  all_goals rcases hp with rfl | rfl
  all_goals simp

theorem synthStage_vars (o : PipeOracle) (ns : PipeNames) (answer : String)
    (w : PWorld) (v : IVars) :
    (synthStage o ns answer w v).2.1.audio_key = v.audio_key ∧
    (synthStage o ns answer w v).2.1.transcript_key = v.transcript_key ∧
    (synthStage o ns answer w v).2.1.transcript_file = v.transcript_file := by
  unfold synthStage
  repeat' split
  all_goals simp [wSynth, wConv, wOggUp, vOa, vOg]

theorem wSynth_store (o : PipeOracle) (ns : PipeNames) (w : PWorld) :
    (wSynth o ns w).store = w.store := by
  unfold wSynth
  split <;> rfl

theorem wConv_store (o : PipeOracle) (ns : PipeNames) (w : PWorld) :
    (wConv o ns w).store = w.store := by
  unfold wConv
  split <;> rfl

theorem synthStage_ok_char (o : PipeOracle) (ns : PipeNames) (answer : String)
    (w : PWorld) (v : IVars) (r : RespData)
    (h : (synthStage o ns answer w v).2.2 = .ok r) :
    r = ⟨answer, some (outputUrlOf ns)⟩ ∧
    (synthStage o ns answer w v).1.store = (bucketName, outputKeyOf ns) :: w.store := by
  revert h
  unfold synthStage
  repeat' split
  all_goals intro h
  all_goals simp_all [wOggUp, wSynth_store, wConv_store]

theorem textFlow_char (o : PipeOracle) (ti : String) (w : PWorld) :
    (textFlow o ti w).1 = w ∧ (textFlow o ti w).2.1 = noVars := by
  unfold textFlow
  repeat' split
  all_goals simp

/-! ### Composed characterizations of the audio flow and the body -/

theorem audioFlow_fs_char (o : PipeOracle) (ns : PipeNames) (ap : String)
    (w : PWorld) (p : String)
    (hp : p ∈ (audioFlow o ns ap w).1.fs) (hnp : p ∉ w.fs) :
    ((audioFlow o ns ap w).2.1.transcript_file = some p ∧ p = transcriptFileOf ns) ∨
    ((audioFlow o ns ap w).2.1.output_audio = some p ∧ p = outputAudioOf ns) ∨
    ((audioFlow o ns ap w).2.1.output_ogg = some p ∧ p = outputOggOf ns) := by
  revert hp
  unfold audioFlow
  split
  next w1 v1 e heq =>
    intro hp
    have hfs := transcribeStage_fs o ns ap w
    rw [heq] at hfs
    exact absurd (hfs ▸ hp) hnp
  next w1 v1 tk heq =>
    have hfs1 := transcribeStage_fs o ns ap w
    rw [heq] at hfs1
    have hnp1 : p ∉ w1.fs := by
      have hw1 : w1.fs = w.fs := hfs1
      rw [hw1]
      exact hnp
    split
    next w2 v2 e heq2 =>
      intro hp
      have hc := fetchStage_fs o ns tk w1 v1 p (by rw [heq2]; exact hp) hnp1
      rw [heq2] at hc
      exact .inl hc
    next w2 v2 q heq2 =>
      have hfs2 : p ∈ w2.fs → (v2.transcript_file = some p ∧ p = transcriptFileOf ns) := by
        intro hp2
        have hc := fetchStage_fs o ns tk w1 v1 p (by rw [heq2]; exact hp2) hnp1
        rw [heq2] at hc
        exact hc
      split
      next e heq3 =>
        intro hp
        exact .inl (hfs2 hp)
      next answer heq3 =>
        intro hp
        by_cases hp2 : p ∈ w2.fs
        · have hv := synthStage_vars o ns answer w2 v2
          have := hfs2 hp2
          exact .inl ⟨by rw [hv.2.2]; exact this.1, this.2⟩
        · have hc := synthStage_fs o ns answer w2 v2 p hp hp2
          rcases hc with h | h
          · exact .inr (.inl h)
          · exact .inr (.inr h)

theorem interviewBody_fs_char (o : PipeOracle) (ns : PipeNames)
    (ap ti : Option String) (w : PWorld) (p : String)
    (hp : p ∈ (interviewBody o ns ap ti w).1.fs) (hnp : p ∉ w.fs) :
    ((interviewBody o ns ap ti w).2.1.transcript_file = some p ∧
      p = transcriptFileOf ns) ∨
    ((interviewBody o ns ap ti w).2.1.output_audio = some p ∧
      p = outputAudioOf ns) ∨
    ((interviewBody o ns ap ti w).2.1.output_ogg = some p ∧ p = outputOggOf ns) := by
  revert hp
  unfold interviewBody
  repeat' split
  · intro hp; exact absurd hp hnp
  · intro hp; exact absurd hp hnp
  · intro hp; exact audioFlow_fs_char o ns (ap.getD "") w p hp hnp
  · intro hp
    have := textFlow_char o (ti.getD "") w
    rw [this.1] at hp
    exact absurd hp hnp

/-! ### Truthiness of the generated temp names -/

theorem strDataNeNilAppendLeft (pre rest : String) (h : pre.data ≠ []) :
    (pre ++ rest).data ≠ [] := by
  rw [strData_append]
  simp [h]

theorem truthyOfDataNeNil (s : String) (h : s.data ≠ []) : pyTruthyStr s = true := by
  have hne : s ≠ "" := fun he => h (by rw [he])
  simpa [pyTruthyStr] using hne

theorem transcriptFile_truthy (ns : PipeNames) :
    pyTruthyStr (transcriptFileOf ns) = true :=
  truthyOfDataNeNil _ (strDataNeNilAppendLeft _ _
    (strDataNeNilAppendLeft "/tmp/" _ (by decide)))

theorem outputAudio_truthy (ns : PipeNames) :
    pyTruthyStr (outputAudioOf ns) = true :=
  truthyOfDataNeNil _ (strDataNeNilAppendLeft _ _
    (strDataNeNilAppendLeft "/tmp/" _ (by decide)))

theorem outputOgg_truthy (ns : PipeNames) :
    pyTruthyStr (outputOggOf ns) = true :=
  truthyOfDataNeNil _ (strDataNeNilAppendLeft _ _
    (strDataNeNilAppendLeft "/tmp/" _ (by decide)))

theorem audioKey_truthy (ns : PipeNames) (ap : String) :
    pyTruthyStr (audioKeyOf ns ap) = true :=
  truthyOfDataNeNil _ (strDataNeNilAppendLeft _ _
    (strDataNeNilAppendLeft _ _ (strDataNeNilAppendLeft "audio/" _ (by decide))))

/-- C4: for every call to `handle_interview` — any collaborator behaviour,
any input (audio or text), any starting filesystem — the `finally` block
guarantees that no local temporary file created during the call (transcript
JSON, synthesized MP3, transcoded OGG) remains on disk afterwards (the final
filesystem is a subset of the initial one), and the source audio file passed
in is removed as well. -/
theorem C4_no_temp_files (o : PipeOracle) (ns : PipeNames)
    (audio_path text_input : Option String) (w : PWorld) :
    (∀ p, p ∈ (handleInterview o ns audio_path text_input w).1.fs → p ∈ w.fs) ∧
    (∀ p, audio_path = some p → pyTruthyStr p = true →
      p ∉ (handleInterview o ns audio_path text_input w).1.fs) := by
  have hfs : (handleInterview o ns audio_path text_input w).1.fs =
      rmLocal (interviewBody o ns audio_path text_input w).2.1.output_ogg
        (rmLocal (interviewBody o ns audio_path text_input w).2.1.output_audio
          (rmLocal (interviewBody o ns audio_path text_input w).2.1.transcript_file
            (rmLocal audio_path (interviewBody o ns audio_path text_input w).1.fs))) :=
    cleanup_fs o audio_path _ _
  constructor
  · intro p hp
    rw [hfs] at hp
    by_cases hw : p ∈ w.fs
    · exact hw
    · exfalso
      have hpB : p ∈ (interviewBody o ns audio_path text_input w).1.fs :=
        rmLocal_subset _ _ p (rmLocal_subset _ _ p
          (rmLocal_subset _ _ p (rmLocal_subset _ _ p hp)))
      have hchar := interviewBody_fs_char o ns audio_path text_input w p hpB hw
      rcases hchar with ⟨hv, hname⟩ | ⟨hv, hname⟩ | ⟨hv, hname⟩
      · have ht : pyTruthyStr p = true := by
          rw [hname]; exact transcriptFile_truthy ns
        have h2 := rmLocal_subset _ _ p (rmLocal_subset _ _ p hp)
        rw [hv] at h2
        exact rmLocal_not_mem_self p _ ht h2
      · have ht : pyTruthyStr p = true := by
          rw [hname]; exact outputAudio_truthy ns
        have h2 := rmLocal_subset _ _ p hp
        rw [hv] at h2
        exact rmLocal_not_mem_self p _ ht h2
      · have ht : pyTruthyStr p = true := by
          rw [hname]; exact outputOgg_truthy ns
        rw [hv] at hp
        exact rmLocal_not_mem_self p _ ht hp
  · intro p hap ht
    rw [hfs, hap]
    intro hp
    have h2 := rmLocal_subset _ _ p (rmLocal_subset _ _ p (rmLocal_subset _ _ p hp))
    exact rmLocal_not_mem_self p _ ht h2

/-! ### Further composition lemmas for claims C3 and C5 -/

/-- Whether an `Except` result is a success. -/
def exOk {α β : Type} : Except α β → Bool
  | .ok _ => true
  | .error _ => false

/-- Whether an S3 call is a fetch (existence check or download). -/
def isFetch : S3Effect → Bool
  | .heads3 _ _ => true
  | .downloads3 _ _ => true
  | _ => false

theorem handleInterview_world (o : PipeOracle) (ns : PipeNames)
    (ap ti : Option String) (w : PWorld) :
    (handleInterview o ns ap ti w).1 =
      pipelineCleanup o ap (interviewBody o ns ap ti w).2.1
        (interviewBody o ns ap ti w).1 := rfl

theorem handleInterview_vars (o : PipeOracle) (ns : PipeNames)
    (ap ti : Option String) (w : PWorld) :
    (handleInterview o ns ap ti w).2.1 = (interviewBody o ns ap ti w).2.1 := rfl

theorem handleInterview_res (o : PipeOracle) (ns : PipeNames)
    (ap ti : Option String) (w : PWorld) :
    (handleInterview o ns ap ti w).2.2 =
      wrapRes (interviewBody o ns ap ti w).2.2 := rfl

theorem wrapRes_ok (x : Except String RespData) (d : RespData) :
    wrapRes x = .ok d ↔ x = .ok d := by
  cases x <;> simp [wrapRes]

theorem interviewBody_audio (o : PipeOracle) (ns : PipeNames) (ap : String)
    (ti : Option String) (w : PWorld) (hap : pyTruthyStr ap = true)
    (hti : pyTruthyStrO ti = false) :
    interviewBody o ns (some ap) ti w = audioFlow o ns ap w := by
  have h1 : pyTruthyStrO (some ap) = true := by simpa [pyTruthyStrO] using hap
  unfold interviewBody
  simp [h1, hti]

theorem audioFlow_stage1_err (o : PipeOracle) (ns : PipeNames) (ap : String)
    (w w1 : PWorld) (v1 : IVars) (e : String)
    (h : transcribeStage o ns ap w = (w1, v1, .error e)) :
    audioFlow o ns ap w = (w1, v1, .error e) := by
  unfold audioFlow
  rw [h]

theorem audioFlow_ok_char (o : PipeOracle) (ns : PipeNames) (ap : String)
    (w : PWorld) (resp : RespData)
    (h : (audioFlow o ns ap w).2.2 = .ok resp) :
    resp.audio_url = some (outputUrlOf ns) ∧
    (audioFlow o ns ap w).1.store =
      (bucketName, outputKeyOf ns) :: (bucketName, audioKeyOf ns ap) :: w.store ∧
    (audioFlow o ns ap w).2.1.audio_key = some (audioKeyOf ns ap) ∧
    ∃ tk, (audioFlow o ns ap w).2.1.transcript_key = some tk := by
  revert h
  unfold audioFlow
  split
  next w1 v1 e heq =>
    intro h
    simp at h
  next w1 v1 tk heq =>
    have hok1 : (transcribeStage o ns ap w).2.2 = .ok tk := by rw [heq]
    have hch1 := transcribeStage_ok_char o ns ap w tk hok1
    rw [heq] at hch1
    have hw1 : w1 = wUploaded ns ap w := hch1.1
    have hv1 : v1 = ⟨some (audioKeyOf ns ap), none, none, none, some tk⟩ := hch1.2
    split
    next w2 v2 e heq2 =>
      intro h
      simp at h
    next w2 v2 q heq2 =>
      have hfss := fetchStage_store o ns tk w1 v1
      rw [heq2] at hfss
      have hw2 : w2.store = w1.store := hfss.1
      have hv2ak : v2.audio_key = v1.audio_key := hfss.2.1
      have hv2tk : v2.transcript_key = v1.transcript_key := hfss.2.2.1
      split
      next e heq3 =>
        intro h
        simp at h
      next answer heq3 =>
        intro h
        have hs := synthStage_ok_char o ns answer w2 v2 resp h
        have hsv := synthStage_vars o ns answer w2 v2
        refine ⟨by rw [hs.1], ?_, ?_, tk, ?_⟩
        · rw [hs.2, hw2, hw1]
          rfl
        · rw [hsv.1, hv2ak, hv1]
        · rw [hsv.2.1, hv2tk, hv1]

theorem delObject_store_fun (ok : Bool) (k : Option String) (w w2 : PWorld)
    (h : w.store = w2.store) :
    (delObject ok k w).store = (delObject ok k w2).store := by
  cases k with
  | none => simpa [delObject] using h
  | some s =>
    by_cases hs : pyTruthyStr s = true
    · cases ok <;> simp [delObject, hs, h]
    · simp [delObject, hs, h]

theorem cleanup_store (o : PipeOracle) (ap : Option String) (v : IVars)
    (w : PWorld) :
    (pipelineCleanup o ap v w).store =
      (delObject o.deleteTranscriptOk v.transcript_key
        (delObject o.deleteAudioOk v.audio_key w)).store := by
  unfold pipelineCleanup
  apply delObject_store_fun
  apply delObject_store_fun
  rfl

/-! ### Claim C2: the poll loop has no timeout branch -/

/-- A collaborator behaviour whose transcription job never reaches a
terminal state: every one of the 60 polls answers IN_PROGRESS, yet the
(non-terminal) job response still carries a transcript URI; every other
call succeeds. -/
def oInProgress : PipeOracle :=
  { audioSize := 5000
    uploadAudio := .ok ()
    startJob := .ok ()
    pollStatus := fun _ => "IN_PROGRESS"
    failureReason := none
    transcriptUri := some "s3://chatbotbucket-vkt/transcribe-job.json"
    headAttempt := fun _ => .okRes
    downloadTranscript := .ok ()
    transcripts := ["what is a container"]
    bedrockAnswer := fun _ => .ok "the answer"
    elevenConfigured := true
    synthWrites := true
    synthRes := .ok ()
    convertWrites := true
    convertRes := .ok ()
    uploadOgg := .ok ()
    deleteAudioOk := true
    deleteTranscriptOk := true }

/-- Concrete fresh names for witnesses. -/
def ns0 : PipeNames := ⟨"u1", "u2", "u3", "u4", "u5"⟩

/-- A world holding just the caller's temp audio file. -/
def w0 : PWorld := ⟨["/tmp/in.wav"], [], []⟩

/-- C2 (code bug): the claim — and the spec — require that exceeding the 60
polls × 3s attempt budget without a terminal state fails with a timeout
ProcessingError.  The code has no such branch: after the loop it inspects
the last non-terminal status; if a transcript URI happens to be present it
proceeds and completes as if successful (second conjunct), and when the URI
is absent it fails with the unrelated "TranscriptFileUri not found" error,
not a timeout (third conjunct). -/
theorem C2_no_timeout_code_bug :
    pollJob oInProgress.pollStatus 0 59 = "IN_PROGRESS" ∧
    (handleInterview oInProgress ns0 (some "/tmp/in.wav") none w0).2.2 =
      .ok ⟨"the answer",
        some "https://chatbotbucket-vkt.s3.ap-southeast-2.amazonaws.com/audio/output/u5.ogg"⟩ ∧
    (handleInterview { oInProgress with transcriptUri := none } ns0
        (some "/tmp/in.wav") none w0).2.2 =
      .error "Processing error: TranscriptFileUri not found in Transcribe response" := by
  refine ⟨rfl, rfl, rfl⟩

/-! ## Theorems for claims C3, C4 (witness), C5 -/

/-- Witness for C4_no_temp_files at a concrete input: after a full
audio-input run the caller's temp file is gone from disk. -/
theorem C4_no_temp_files_witness :
    "/tmp/in.wav" ∉ (handleInterview oInProgress ns0 (some "/tmp/in.wav")
      none w0).1.fs :=
  (C4_no_temp_files oInProgress ns0 (some "/tmp/in.wav") none w0).2
    "/tmp/in.wav" rfl (by decide)

/-- C3: if the transcript-result URI resolves to a bucket different from the
configured one, `handle_interview` fails (raises a ProcessingError) and its
S3 trace contains no fetch — neither a `head_object` existence check nor a
`download_file` — of any object: the bucket check fires before any read of
the transcript location. -/
theorem C3_bucket_mismatch_fail_closed (o : PipeOracle) (ns : PipeNames)
    (ap uri tb tk : String) (w : PWorld)
    (hap : pyTruthyStr ap = true)
    (hw : w.trace = [])
    (huri : o.transcriptUri = some uri)
    (hparse : parseTranscriptUri uri = .ok (tb, tk))
    (htb : tb ≠ bucketName) :
    exOk (handleInterview o ns (some ap) none w).2.2 = false ∧
    ((handleInterview o ns (some ap) none w).1.trace.all
      fun e => !isFetch e) = true := by
  have hbody : interviewBody o ns (some ap) none w = audioFlow o ns ap w :=
    interviewBody_audio o ns ap none w hap rfl
  rcases hstage : transcribeStage o ns ap w with ⟨w1, v1, r⟩
  cases r with
  | ok tk2 =>
    exfalso
    have hok : (transcribeStage o ns ap w).2.2 = .ok tk2 := by rw [hstage]
    obtain ⟨uri2, huri2, hparse2⟩ := transcribeStage_ok_parse o ns ap w tk2 hok
    rw [huri] at huri2
    injection huri2 with he
    rw [← he] at hparse2
    rw [hparse2] at hparse
    injection hparse with hpair
    injection hpair with hb hk
    exact htb hb.symm
  | error e =>
    have haf : audioFlow o ns ap w = (w1, v1, .error e) :=
      audioFlow_stage1_err o ns ap w w1 v1 e hstage
    constructor
    · rw [handleInterview_res, hbody, haf]
      rfl
    · rw [List.all_eq_true]
      intro e2 he2
      rw [handleInterview_world, hbody, haf] at he2
      have hcl := cleanup_trace_mem o (some ap) v1 w1 e2 he2
      rcases hcl with hcl | ⟨kk, rfl⟩
      · have hw1 : e2 ∈ (transcribeStage o ns ap w).1.trace := by
          rw [hstage]; exact hcl
        have := transcribeStage_trace o ns ap w e2 hw1
        rcases this with h2 | rfl
        · rw [hw] at h2; cases h2
        · rfl
      · rfl

/-- The collaborator behaviour of the C3 witness: the job completes, but
the transcript-result URI points at a foreign bucket. -/
def oMismatch : PipeOracle :=
  { oInProgress with
      pollStatus := fun _ => "COMPLETED"
      transcriptUri := some "s3://evil-bucket/transcribe-job.json" }

/-- Witness for C3_bucket_mismatch_fail_closed at a concrete input. -/
theorem C3_bucket_mismatch_witness :
    exOk (handleInterview oMismatch ns0 (some "/tmp/in.wav") none w0).2.2 = false ∧
    ((handleInterview oMismatch ns0 (some "/tmp/in.wav") none w0).1.trace.all
      fun e => !isFetch e) = true :=
  C3_bucket_mismatch_fail_closed oMismatch ns0 "/tmp/in.wav"
    "s3://evil-bucket/transcribe-job.json" "evil-bucket" "transcribe-job.json" w0
    (by decide) rfl rfl rfl (by decide)

/-- C5: after every successful audio-input call, the reply-audio object
`audio/output/<uuid>.ogg` is in the store and the returned URL refers to it,
while the uploaded source-audio object and the transcript object have been
deleted (assuming the best-effort deletes succeeded and the fresh reply key
collides with neither, as uuid freshness guarantees). -/
theorem C5_retention (o : PipeOracle) (ns : PipeNames) (ap : String)
    (w : PWorld) (resp : RespData)
    (hap : pyTruthyStr ap = true)
    (hres : (handleInterview o ns (some ap) none w).2.2 = .ok resp)
    (hdel1 : o.deleteAudioOk = true) (hdel2 : o.deleteTranscriptOk = true)
    (hk1 : outputKeyOf ns ≠ audioKeyOf ns ap)
    (hk2 : ∀ k, (handleInterview o ns (some ap) none w).2.1.transcript_key = some k →
      outputKeyOf ns ≠ k) :
    resp.audio_url = some (outputUrlOf ns) ∧
    (bucketName, outputKeyOf ns) ∈ (handleInterview o ns (some ap) none w).1.store ∧
    (bucketName, audioKeyOf ns ap) ∉ (handleInterview o ns (some ap) none w).1.store ∧
    (∀ k, (handleInterview o ns (some ap) none w).2.1.transcript_key = some k →
      pyTruthyStr k = true →
      (bucketName, k) ∉ (handleInterview o ns (some ap) none w).1.store) := by
  have hbody : interviewBody o ns (some ap) none w = audioFlow o ns ap w :=
    interviewBody_audio o ns ap none w hap rfl
  rw [handleInterview_res, hbody] at hres
  rw [wrapRes_ok] at hres
  have hch := audioFlow_ok_char o ns ap w resp hres
  obtain ⟨hurl, hstore, hak, tk, htk⟩ := hch
  have hvars : (handleInterview o ns (some ap) none w).2.1 =
      (audioFlow o ns ap w).2.1 := by rw [handleInterview_vars, hbody]
  have hwstore : (handleInterview o ns (some ap) none w).1.store =
      (delObject o.deleteTranscriptOk (audioFlow o ns ap w).2.1.transcript_key
        (delObject o.deleteAudioOk (audioFlow o ns ap w).2.1.audio_key
          (audioFlow o ns ap w).1)).store := by
    rw [handleInterview_world, hbody]
    exact cleanup_store o (some ap) _ _
  refine ⟨hurl, ?_, ?_, ?_⟩
  · rw [hwstore, htk, hak]
    apply delObject_store_mem
    · apply delObject_store_mem
      · rw [hstore]; exact List.mem_cons_self _ _
      · intro s hs hx
        injection hs with hs2
        rw [← hs2] at hx
        exact hk1 (show outputKeyOf ns = audioKeyOf ns ap from
          congrArg Prod.snd hx)
    · intro s hs hx
      injection hs with hs2
      have hne2 := hk2 s (by rw [hvars, htk, hs2])
      exact hne2 (show outputKeyOf ns = s from congrArg Prod.snd hx)
  · rw [hwstore, hak]
    intro hmem
    have hsub := delObject_store_sub o.deleteTranscriptOk
      (audioFlow o ns ap w).2.1.transcript_key _ _ hmem
    exact delObject_store_not_mem_deleted o.deleteAudioOk (audioKeyOf ns ap) _
      hdel1 (audioKey_truthy ns ap) hsub
  · intro k hk hkt
    rw [hwstore]
    rw [hvars, htk] at hk
    injection hk with hk2e
    rw [htk, hk2e]
    exact delObject_store_not_mem_deleted o.deleteTranscriptOk k _ hdel2 hkt

/-- The collaborator behaviour of the C5 witness: everything succeeds with
a COMPLETED transcription job. -/
def oAllOk : PipeOracle :=
  { oInProgress with pollStatus := fun _ => "COMPLETED" }

/-- Witness for C5_retention at a concrete input: the reply object is
retained, the uploaded source audio is gone. -/
theorem C5_retention_witness :
    (bucketName, outputKeyOf ns0) ∈
      (handleInterview oAllOk ns0 (some "/tmp/in.wav") none w0).1.store ∧
    (bucketName, audioKeyOf ns0 "/tmp/in.wav") ∉
      (handleInterview oAllOk ns0 (some "/tmp/in.wav") none w0).1.store := by
  have h := C5_retention oAllOk ns0 "/tmp/in.wav" w0
    ⟨"the answer", some (outputUrlOf ns0)⟩ (by decide) rfl rfl rfl (by decide)
    (by
      intro k hk
      have h2 : (some "transcribe-job.json" : Option String) = some k := hk
      injection h2 with h3
      rw [← h3]
      decide)
  exact ⟨h.2.1, h.2.2.1⟩

/-! ## Theorems for claim C6 -/

/-- C6 (counterexample): the claim states that any host shape other than
`s3.<region>.amazonaws.com` fails with an explicit error, but the regex is
matched with `re.match`, which anchors only at the start of the netloc: an
https URI whose host merely *begins with* `s3.<region>.amazonaws.com` and
continues with an attacker-controlled suffix parses successfully instead of
failing. -/
theorem C6_counterexample :
    parseTranscriptUri
        "https://s3.us-east-1.amazonaws.com.evil.example/mybucket/some/key"
      = .ok ("mybucket", "some/key") := rfl

/-- C6 (amended): for every bucket `B`, key `K`, query string `Q` and region
— under side conditions satisfied by real S3 names: `B` contains none of
`/ ? # ;`, `K` has no leading slash and contains none of `? # ;`, `Q`
contains no `#` — the storage-native form `s3://B/K` and the HTTPS form
`https://s3.<region>.amazonaws.com/B/K` both resolve to exactly `(B, K)`;
urlparse strips a query component, so the presigned-style forms
`s3://B/K?Q` and `https://s3.<region>.amazonaws.com/B/K?Q` also resolve to
`(B, K)`, with `?Q` dropped from the key.  Any scheme other than
`s3`/`https` fails with an explicit error, and an https URI whose host does
not start with the `s3.<region>.amazonaws.com` pattern fails — but a host
that merely begins with that pattern (with an arbitrary suffix after
`.com`) is accepted, weakening the claim's "any other host shape fails". -/
theorem C6_amended (B K Q region : String)
    (hB : ∀ c ∈ B.data, ¬(c = '/' ∨ c = '?' ∨ c = '#') ∧ c ≠ ';')
    (hK : ∀ c ∈ K.data, c ≠ '#' ∧ c ≠ '?' ∧ c ≠ ';')
    (hKh : K.data.head? ≠ some '/')
    (hQ : ∀ c ∈ Q.data, c ≠ '#')
    (hr1 : region.data ≠ [])
    (hr2 : ∀ c ∈ region.data, isRegionChar c = true) :
    parseTranscriptUri ("s3://" ++ B ++ "/" ++ K) = .ok (B, K) ∧
    parseTranscriptUri
        ("https://" ++ ("s3." ++ region ++ ".amazonaws.com") ++ "/" ++ B ++ "/" ++ K)
      = .ok (B, K) ∧
    parseTranscriptUri ("s3://" ++ B ++ "/" ++ K ++ "?" ++ Q) = .ok (B, K) ∧
    parseTranscriptUri
        ("https://" ++ ("s3." ++ region ++ ".amazonaws.com") ++ "/" ++ B ++ "/" ++ K
          ++ "?" ++ Q)
      = .ok (B, K) ∧
    (∀ uri : String, (urlparse uri).scheme ≠ "s3" → (urlparse uri).scheme ≠ "https" →
      parseTranscriptUri uri
        = .error ("Invalid TranscriptFileUri scheme or netloc: " ++ uri)) ∧
    (∀ uri : String, (urlparse uri).scheme = "https" →
      s3HostMatch (urlparse uri).netloc.data = false →
      ∃ e, parseTranscriptUri uri = .error e) := by
  have hB3 : ∀ c ∈ B.data, ¬(c = '/' ∨ c = '?' ∨ c = '#') := fun c hc => (hB c hc).1
  exact ⟨parse_s3Form B K hB3 hK hKh,
    parse_httpsForm B K region hB hK hr1 hr2,
    parse_s3Form_query B K Q hB3 hK hKh hQ,
    parse_httpsForm_query B K Q region hB hK hQ hr1 hr2,
    parse_other_scheme, parse_https_bad_host⟩

/-- Witness for C6_amended at concrete inputs: both addressing forms of
bucket `mybucket`, key `some/key` in region `ap-southeast-2` resolve to the
same pair, and a presigned-style query suffix is stripped from the key. -/
theorem C6_amended_witness :
    parseTranscriptUri ("s3://" ++ "mybucket" ++ "/" ++ "some/key")
      = .ok ("mybucket", "some/key") ∧
    parseTranscriptUri ("https://" ++ ("s3." ++ "ap-southeast-2" ++ ".amazonaws.com")
        ++ "/" ++ "mybucket" ++ "/" ++ "some/key")
      = .ok ("mybucket", "some/key") ∧
    parseTranscriptUri ("s3://" ++ "mybucket" ++ "/" ++ "some/key" ++ "?"
        ++ "X-Amz-Expires=300")
      = .ok ("mybucket", "some/key") ∧
    parseTranscriptUri ("https://" ++ ("s3." ++ "ap-southeast-2" ++ ".amazonaws.com")
        ++ "/" ++ "mybucket" ++ "/" ++ "some/key" ++ "?" ++ "X-Amz-Expires=300")
      = .ok ("mybucket", "some/key") := by
  have h := C6_amended "mybucket" "some/key" "X-Amz-Expires=300" "ap-southeast-2"
    (by decide) (by decide) (by decide) (by decide) (by decide) (by decide)
  exact ⟨h.1, h.2.1, h.2.2.1, h.2.2.2.1⟩

/-! ## The webhook router (main.py `handle_webhook`)

The handler is embedded over a JSON value type with Python semantics for
`dict.get` (an `AttributeError` on a non-dict receiver), `dict[k]`
(a `KeyError` when missing), truthiness, and iteration.  The global
`processed_messages` set is a list of JSON values; outbound sends and
pipeline invocations are recorded as effects.  `handle_interview` and all
network calls are an oracle record. -/

inductive Json
  | null
  | jstr (s : String)
  | jnum (n : Int)
  | jbool (b : Bool)
  | jarr (xs : List Json)
  | jobj (kvs : List (String × Json))

mutual

/-- Python `==` on JSON values (structural). -/
def jeq : Json → Json → Bool
  | .null, .null => true
  | .jstr a, .jstr b => a == b
  | .jnum a, .jnum b => a == b
  | .jbool a, .jbool b => a == b
  | .jarr a, .jarr b => jeqList a b
  | .jobj a, .jobj b => jeqKvs a b
  | _, _ => false

def jeqList : List Json → List Json → Bool
  | [], [] => true
  | x :: xs, y :: ys => jeq x y && jeqList xs ys
  | _, _ => false

def jeqKvs : List (String × Json) → List (String × Json) → Bool
  | [], [] => true
  | (k1, v1) :: xs, (k2, v2) :: ys => k1 == k2 && jeq v1 v2 && jeqKvs xs ys
  | _, _ => false

end

/-- Python truthiness of a JSON value. -/
def jtruthy : Json → Bool
  | .null => false
  | .jstr s => s != ""
  | .jnum n => n != 0
  | .jbool b => b
  | .jarr xs => !xs.isEmpty
  | .jobj kvs => !kvs.isEmpty

/-- The Python exceptions the router's envelope traversal can raise. -/
inductive PyExn
  | attributeError
  | typeError
  | keyError (k : String)
  deriving Repr, DecidableEq

def pyExnMsg : PyExn → String
  | .attributeError => "AttributeError"
  | .typeError => "TypeError"
  | .keyError k => "KeyError: " ++ k

def lookupKey (k : String) : List (String × Json) → Option Json
  | [] => none
  | (k2, v) :: rest => if k2 == k then some v else lookupKey k rest

/-- Python `x.get(k)`: `None` default on a dict, `AttributeError` else. -/
def jget : Json → String → Except PyExn Json
  | .jobj kvs, k => .ok ((lookupKey k kvs).getD .null)
  | _, _ => .error .attributeError

/-- Python `x.get(k, d)`. -/
def jgetD : Json → String → Json → Except PyExn Json
  | .jobj kvs, k, d => .ok ((lookupKey k kvs).getD d)
  | _, _, _ => .error .attributeError

/-- Python `x[k]` on a dict: `KeyError` when missing, `TypeError` else. -/
def jindex : Json → String → Except PyExn Json
  | .jobj kvs, k =>
    match lookupKey k kvs with
    | some v => .ok v
    | none => .error (.keyError k)
  | _, _ => .error .typeError

/-- The string a JSON value contributes where the code uses it as a string
(sender ids, phone-number ids). -/
def jstrOf : Json → String
  | .jstr s => s
  | .jnum n => toString n
  | .jbool b => toString b
  | .null => "None"
  | .jarr _ => "list"
  | .jobj _ => "dict"

/-- Pipeline invocations and outbound sends the router performs, in order. -/
inductive WebhookEffect
  | pipelineText (t : Json)
  | pipelineAudio
  | sendWhatsText (pid sid body : String)
  | sendWhatsAudio (pid sid url : String)
  | sendMessText (sid body : String)
  | sendMessAudio (sid url : String)

/-- Router state: the process-wide `processed_messages` set and the trace
of effects. -/
structure WSt where
  processed : List Json
  effects : List WebhookEffect

/-- Behaviour of every external call `handle_webhook` makes. -/
structure WebOracle where
  whatsToken : Bool
  messengerToken : Bool
  interviewText : Json → Except String RespData
  interviewAudio : Except String RespData
  validateUrl : String → Bool
  sendWhatsTextOk : Bool
  sendWhatsAudioOk : Bool
  sendMessTextOk : Bool
  sendMessAudioOk : Bool
  downloadAudio : Option Unit
  downloadSize : Nat
  waPydub : Except String Unit
  waFfmpeg : Except String Unit
  urlretrieve : Except String Unit

/-- main.py:333-360 — `send_whatsapp_message`: no-op returning False
without the token; otherwise transmit the truncated payload. -/
def doSendWhatsText (o : WebOracle) (pid sid text : String) (st : WSt) :
    WSt × Bool :=
  if o.whatsToken then
    ({ st with effects := st.effects
        ++ [.sendWhatsText pid sid (mkWhatsappTextPayload sid text).body] },
      o.sendWhatsTextOk)
  else (st, false)

/-- main.py:363-390 — `send_whatsapp_audio`. -/
def doSendWhatsAudio (o : WebOracle) (pid sid url : String) (st : WSt) :
    WSt × Bool :=
  if o.whatsToken then
    ({ st with effects := st.effects ++ [.sendWhatsAudio pid sid url] },
      o.sendWhatsAudioOk)
  else (st, false)

/-- main.py:393-412 — `send_text_message` (Messenger). -/
def doSendMessText (o : WebOracle) (sid text : String) (st : WSt) : WSt × Bool :=
  if o.messengerToken then
    ({ st with effects := st.effects
        ++ [.sendMessText sid (mkMessengerTextPayload sid text).body] },
      o.sendMessTextOk)
  else (st, false)

/-- main.py:414-438 — `send_audio_message` (Messenger). -/
def doSendMessAudio (o : WebOracle) (sid url : String) (st : WSt) : WSt × Bool :=
  if o.messengerToken then
    ({ st with effects := st.effects ++ [.sendMessAudio sid url] },
      o.sendMessAudioOk)
  else (st, false)

/-- main.py:166-174 / 223-231 — the reply block after a successful pipeline
call on the WhatsApp channel: send the text, then, if an audio URL is
present, validate it and send the audio or a text apology. -/
def whatsReplyOk (o : WebOracle) (pid sid : String) (resp : RespData)
    (st : WSt) : WSt :=
  let st1 := if o.whatsToken then (doSendWhatsText o pid sid resp.text st).1 else st
  if pyTruthyStrO resp.audio_url && o.whatsToken then
    if o.validateUrl (resp.audio_url.getD "") then
      let r := doSendWhatsAudio o pid sid (resp.audio_url.getD "") st1
      if r.2 then r.1
      else (doSendWhatsText o pid sid
        "Sorry, I couldn't send the audio response." r.1).1
    else (doSendWhatsText o pid sid
      "Sorry, I couldn't send the audio response." st1).1
  else st1

/-- main.py:161-178 — the WhatsApp text branch: invoke the pipeline inside
a try; on any failure send a best-effort apology. -/
def processWhatsText (o : WebOracle) (pid sid : String) (textVal : Json)
    (st : WSt) : WSt :=
  let st0 := { st with effects := st.effects ++ [.pipelineText textVal] }
  match o.interviewText textVal with
  | .ok resp => whatsReplyOk o pid sid resp st0
  | .error _ =>
    if o.whatsToken then
      (doSendWhatsText o pid sid "Sorry, I couldn't process your request." st0).1
    else st0

/-- The apology sent by the WhatsApp audio branch's except block
(main.py:238-241). -/
def whatsAudioApology (o : WebOracle) (pid sid : String) (st : WSt) : WSt :=
  if o.whatsToken then
    (doSendWhatsText o pid sid "Sorry, I couldn't process your audio." st).1
  else st

/-- main.py:181-246 — the WhatsApp audio branch: download, size check,
OGG→WAV conversion with the library/tool fallback chain, pipeline, replies;
every raise inside the try becomes the apology. -/
def processWhatsAudio (o : WebOracle) (pid sid : String) (audioId : Json)
    (st : WSt) : WSt :=
  if jtruthy audioId && o.whatsToken then
    match o.downloadAudio with
    | none => whatsAudioApology o pid sid st
    | some _ =>
      if o.downloadSize < 1024 then whatsAudioApology o pid sid st
      else
        match (webhookOggToWav o.waPydub o.waFfmpeg).1 with
        | .error _ => whatsAudioApology o pid sid st
        | .ok _ =>
          let st0 := { st with effects := st.effects ++ [.pipelineAudio] }
          match o.interviewAudio with
          | .ok resp => whatsReplyOk o pid sid resp st0
          | .error _ => whatsAudioApology o pid sid st0
  else whatsAudioApology o pid sid st

/-- Iterate a Python `for` body that may raise, stopping at the first
exception (the loop aborts and the exception propagates). -/
def forJson (f : Json → WSt → WSt × Except PyExn Unit) :
    List Json → WSt → WSt × Except PyExn Unit
  | [], st => (st, .ok ())
  | x :: xs, st =>
    match f x st with
    | (st2, .ok _) => forJson f xs st2
    | (st2, .error e) => (st2, .error e)

/-- main.py:143-246 — one WhatsApp message: extract the id, dedup-check
and insert *before* processing, extract sender and phone-number id, then
dispatch on the message type. -/
def processWhatsMessage (o : WebOracle) (value message : Json) (st : WSt) :
    WSt × Except PyExn Unit :=
  match jget message "id" with
  | .error e => (st, .error e)
  | .ok midJ =>
    if !jtruthy midJ then (st, .ok ())
    else if st.processed.any (fun x => jeq x midJ) then (st, .ok ())
    else
      let st1 : WSt := { st with processed := midJ :: st.processed }
      match jget message "from" with
      | .error e => (st1, .error e)
      | .ok sidJ =>
        match jgetD value "metadata" (.jobj []) with
        | .error e => (st1, .error e)
        | .ok md =>
          match jget md "phone_number_id" with
          | .error e => (st1, .error e)
          | .ok pidJ =>
            if !jtruthy sidJ || !jtruthy pidJ then (st1, .ok ())
            else
              match jget message "type" with
              | .error e => (st1, .error e)
              | .ok ty =>
                if jeq ty (.jstr "text") then
                  match jgetD message "text" (.jobj []) with
                  | .error e => (st1, .error e)
                  | .ok textObj =>
                    match jget textObj "body" with
                    | .error e => (st1, .error e)
                    | .ok textVal =>
                      (processWhatsText o (jstrOf pidJ) (jstrOf sidJ) textVal st1,
                        .ok ())
                else if jeq ty (.jstr "audio") then
                  match jgetD message "audio" (.jobj []) with
                  | .error e => (st1, .error e)
                  | .ok audioObj =>
                    match jget audioObj "id" with
                    | .error e => (st1, .error e)
                    | .ok audioId =>
                      (processWhatsAudio o (jstrOf pidJ) (jstrOf sidJ) audioId st1,
                        .ok ())
                else (st1, .ok ())

/-- main.py:141-143 — one change: read its value and, when it is truthy and
carries messages, iterate them. -/
def processChange (o : WebOracle) (change : Json) (st : WSt) :
    WSt × Except PyExn Unit :=
  match jget change "value" with
  | .error e => (st, .error e)
  | .ok value =>
    if !jtruthy value then (st, .ok ())
    else
      match jget value "messages" with
      | .error e => (st, .error e)
      | .ok msgs =>
        if !jtruthy msgs then (st, .ok ())
        else
          match msgs with
          | .jarr xs => forJson (processWhatsMessage o value) xs st
          | _ => (st, .error .typeError)

/-- main.py:139-140 — one WhatsApp entry: iterate its changes. -/
def processEntryWhats (o : WebOracle) (entry : Json) (st : WSt) :
    WSt × Except PyExn Unit :=
  match jgetD entry "changes" (.jarr []) with
  | .error e => (st, .error e)
  | .ok chs =>
    match chs with
    | .jarr xs => forJson (processChange o) xs st
    | _ => (st, .error .typeError)

/-- main.py:272-275 / 288-291 — the Messenger reply block: send the text,
then the audio URL if present (no pre-validation on this channel). -/
def messReplyOk (o : WebOracle) (sid : String) (resp : RespData) (st : WSt) :
    WSt :=
  let st1 := (doSendMessText o sid resp.text st).1
  if pyTruthyStrO resp.audio_url then
    (doSendMessAudio o sid (resp.audio_url.getD "") st1).1
  else st1

/-- main.py:268-278 — the Messenger text branch. -/
def processMessText (o : WebOracle) (sid : String) (textVal : Json) (st : WSt) :
    WSt :=
  let st0 := { st with effects := st.effects ++ [.pipelineText textVal] }
  match o.interviewText textVal with
  | .ok resp => messReplyOk o sid resp st0
  | .error _ =>
    (doSendMessText o sid "Sorry, I couldn't process your request." st0).1

/-- main.py:281-297 — one Messenger attachment: the payload URL is read
*outside* the try (a missing key raises to the transport); the download and
the pipeline run inside it with a best-effort apology on failure. -/
def processMessAttachment (o : WebOracle) (sid : String) (att : Json)
    (st : WSt) : WSt × Except PyExn Unit :=
  match jget att "type" with
  | .error e => (st, .error e)
  | .ok ty =>
    if jeq ty (.jstr "audio") then
      match jindex att "payload" with
      | .error e => (st, .error e)
      | .ok payload =>
        match jindex payload "url" with
        | .error e => (st, .error e)
        | .ok _ =>
          match o.urlretrieve with
          | .error _ =>
            ((doSendMessText o sid "Sorry, I couldn't process your audio." st).1,
              .ok ())
          | .ok _ =>
            let st0 := { st with effects := st.effects ++ [.pipelineAudio] }
            match o.interviewAudio with
            | .ok resp => (messReplyOk o sid resp st0, .ok ())
            | .error _ =>
              ((doSendMessText o sid "Sorry, I couldn't process your audio."
                st0).1, .ok ())
    else (st, .ok ())

/-- main.py:252-297 — one Messenger event: extract the mid, dedup-check and
insert before processing, extract the sender, then dispatch. -/
def processMessEvent (o : WebOracle) (event : Json) (st : WSt) :
    WSt × Except PyExn Unit :=
  match jgetD event "message" (.jobj []) with
  | .error e => (st, .error e)
  | .ok msg1 =>
    match jget msg1 "mid" with
    | .error e => (st, .error e)
    | .ok midJ =>
      if !jtruthy midJ then (st, .ok ())
      else if st.processed.any (fun x => jeq x midJ) then (st, .ok ())
      else
        let st1 : WSt := { st with processed := midJ :: st.processed }
        match jgetD event "sender" (.jobj []) with
        | .error e => (st1, .error e)
        | .ok sender =>
          match jget sender "id" with
          | .error e => (st1, .error e)
          | .ok sidJ =>
            if !jtruthy sidJ then (st1, .ok ())
            else
              match jgetD event "message" (.jobj []) with
              | .error e => (st1, .error e)
              | .ok msg2 =>
                match jget msg2 "text" with
                | .error e => (st1, .error e)
                | .ok textVal =>
                  if jtruthy textVal then
                    (processMessText o (jstrOf sidJ) textVal st1, .ok ())
                  else
                    match jget msg2 "attachments" with
                    | .error e => (st1, .error e)
                    | .ok atts =>
                      if jtruthy atts then
                        match atts with
                        | .jarr xs =>
                          forJson (processMessAttachment o (jstrOf sidJ)) xs st1
                        | _ => (st1, .error .typeError)
                      else (st1, .ok ())

/-- main.py:250-251 — one Messenger entry: iterate its messaging events. -/
def processEntryMess (o : WebOracle) (entry : Json) (st : WSt) :
    WSt × Except PyExn Unit :=
  match jgetD entry "messaging" (.jarr []) with
  | .error e => (st, .error e)
  | .ok msging =>
    match msging with
    | .jarr xs => forJson (processMessEvent o) xs st
    | _ => (st, .error .typeError)

/-- The transport-level outcome of one POST /webhook delivery. -/
inductive HttpOut
  | success (status : Nat)
  | httpError (status : Nat) (detail : String)
  deriving Repr, DecidableEq

/-- main.py:131-302 — `handle_webhook`: parse the body, route per provider,
acknowledge 200 on completion; any exception escaping the routing is
re-raised as an HTTP 500 to the transport (main.py:300-302).  State
mutations made before the exception persist (the set is process-global). -/
def handleWebhook (o : WebOracle) (body : Except String Json)
    (processed : List Json) : WSt × HttpOut :=
  let st0 : WSt := ⟨processed, []⟩
  match body with
  | .error e => (st0, .httpError 500 e)
  | .ok data =>
    match jget data "object" with
    | .error e => (st0, .httpError 500 (pyExnMsg e))
    | .ok obj =>
      if jeq obj (.jstr "whatsapp_business_account") then
        match jgetD data "entry" (.jarr []) with
        | .error e => (st0, .httpError 500 (pyExnMsg e))
        | .ok entries =>
          match entries with
          | .jarr xs =>
            match forJson (processEntryWhats o) xs st0 with
            | (st, .ok _) => (st, .success 200)
            | (st, .error e) => (st, .httpError 500 (pyExnMsg e))
          | _ => (st0, .httpError 500 (pyExnMsg .typeError))
      else if jeq obj (.jstr "page") then
        match jgetD data "entry" (.jarr []) with
        | .error e => (st0, .httpError 500 (pyExnMsg e))
        | .ok entries =>
          match entries with
          | .jarr xs =>
            match forJson (processEntryMess o) xs st0 with
            | (st, .ok _) => (st, .success 200)
            | (st, .error e) => (st, .httpError 500 (pyExnMsg e))
          | _ => (st0, .httpError 500 (pyExnMsg .typeError))
      else (st0, .success 200)

/-- A single WhatsApp text message object. -/
def waMessage (mid sid text : String) : Json :=
  .jobj [("id", .jstr mid), ("from", .jstr sid), ("type", .jstr "text"),
    ("text", .jobj [("body", .jstr text)])]

/-- The change value carrying one WhatsApp text message. -/
def waValue (mid sid pid text : String) : Json :=
  .jobj [("messages", .jarr [waMessage mid sid text]),
    ("metadata", .jobj [("phone_number_id", .jstr pid)])]

/-- The change wrapping the value. -/
def waChange (mid sid pid text : String) : Json :=
  .jobj [("value", waValue mid sid pid text)]

/-- The entry wrapping the change. -/
def waEntry (mid sid pid text : String) : Json :=
  .jobj [("changes", .jarr [waChange mid sid pid text])]

/-- A single-text-message WhatsApp Business Account delivery body. -/
def waTextBody (mid sid pid text : String) : Json :=
  .jobj [("object", .jstr "whatsapp_business_account"),
    ("entry", .jarr [waEntry mid sid pid text])]

/-- A single-text-message Messenger page delivery body. -/
def msTextBody (mid sid text : String) : Json :=
  .jobj [("object", .jstr "page"),
    ("entry", .jarr [.jobj [("messaging", .jarr [.jobj [
      ("sender", .jobj [("id", .jstr sid)]),
      ("message", .jobj [("mid", .jstr mid), ("text", .jstr text)])]])]])]

/-! ### No-raise lemmas for the well-formed single-message WhatsApp body -/

theorem processWhatsMessage_ok (o : WebOracle) (mid sid pid text : String)
    (st : WSt) :
    (processWhatsMessage o (waValue mid sid pid text)
      (waMessage mid sid text) st).2 = .ok () := by
  simp [processWhatsMessage, waValue, waMessage, jget, jgetD, lookupKey,
    jeq, jtruthy, jstrOf]
  repeat' split
  all_goals rfl

theorem processChange_ok (o : WebOracle) (mid sid pid text : String) (st : WSt) :
    (processChange o (waChange mid sid pid text) st).2 = .ok () := by
  have hA := processWhatsMessage_ok o mid sid pid text st
  rcases hpm : processWhatsMessage o (waValue mid sid pid text)
    (waMessage mid sid text) st with ⟨st2, r⟩
  rw [hpm] at hA
  have hr : r = .ok () := hA
  subst hr
  simp only [waValue, waMessage] at hpm
  simp [processChange, waChange, waValue, waMessage, jget, lookupKey, jtruthy,
    forJson, hpm]

theorem processEntryWhats_ok (o : WebOracle) (mid sid pid text : String)
    (st : WSt) :
    (processEntryWhats o (waEntry mid sid pid text) st).2 = .ok () := by
  have hA := processChange_ok o mid sid pid text st
  rcases hpm : processChange o (waChange mid sid pid text) st with ⟨st2, r⟩
  rw [hpm] at hA
  have hr : r = .ok () := hA
  subst hr
  simp only [waChange, waValue, waMessage] at hpm
  simp [processEntryWhats, waEntry, waChange, waValue, waMessage, jgetD,
    lookupKey, forJson, hpm]

theorem waTextBody_always_ack (o : WebOracle) (mid sid pid text : String)
    (ps : List Json) :
    (handleWebhook o (.ok (waTextBody mid sid pid text)) ps).2 = .success 200 := by
  have hA := processEntryWhats_ok o mid sid pid text ⟨ps, []⟩
  rcases hpm : processEntryWhats o (waEntry mid sid pid text) ⟨ps, []⟩
    with ⟨st2, r⟩
  rw [hpm] at hA
  have hr : r = .ok () := hA
  subst hr
  simp only [waEntry, waChange, waValue, waMessage] at hpm
  simp [handleWebhook, waTextBody, waEntry, waChange, waValue, waMessage,
    jget, jgetD, lookupKey, jeq, forJson, hpm]

/-! ## Theorems for claims C1 and C8 -/

/-- C1: webhook dedup.  For a well-formed single-text-message delivery on
either channel: a fresh messageId is processed with exactly one pipeline
invocation and one reply and is recorded in ProcessedMessageSet; a delivery
whose messageId is already in the set produces no pipeline invocation and
no reply and leaves the set unchanged (so two sequential deliveries of the
same messageId give exactly one invocation and one reply); and the id is
inserted before processing begins: it is in the set afterwards even when
the pipeline raises. -/
theorem C1_dedup_idempotent (o : WebOracle) (mid sid pid text ans : String)
    (hmid : mid ≠ "") (hsid : sid ≠ "") (hpid : pid ≠ "")
    (htokW : o.whatsToken = true) (htokM : o.messengerToken = true)
    (hint : o.interviewText (.jstr text) = .ok ⟨ans, none⟩) :
    ((handleWebhook o (.ok (waTextBody mid sid pid text)) []).1.effects =
        [.pipelineText (.jstr text),
         .sendWhatsText pid sid (mkWhatsappTextPayload sid ans).body] ∧
      (handleWebhook o (.ok (waTextBody mid sid pid text)) []).1.processed =
        [.jstr mid] ∧
      (handleWebhook o (.ok (waTextBody mid sid pid text)) []).2
        = .success 200) ∧
    (∀ ps, ps.any (fun x => jeq x (.jstr mid)) = true →
      (handleWebhook o (.ok (waTextBody mid sid pid text)) ps).1.effects = [] ∧
      (handleWebhook o (.ok (waTextBody mid sid pid text)) ps).1.processed = ps ∧
      (handleWebhook o (.ok (waTextBody mid sid pid text)) ps).2
        = .success 200) ∧
    (∀ e, (handleWebhook { o with interviewText := fun _ => .error e }
        (.ok (waTextBody mid sid pid text)) []).1.processed = [.jstr mid]) ∧
    (text ≠ "" →
      ((handleWebhook o (.ok (msTextBody mid sid text)) []).1.effects =
          [.pipelineText (.jstr text),
           .sendMessText sid (mkMessengerTextPayload sid ans).body] ∧
        (handleWebhook o (.ok (msTextBody mid sid text)) []).1.processed =
          [.jstr mid]) ∧
      (∀ ps, ps.any (fun x => jeq x (.jstr mid)) = true →
        (handleWebhook o (.ok (msTextBody mid sid text)) ps).1.effects = [])) := by
  refine ⟨?_, ?_, ?_, ?_⟩
  · simp [handleWebhook, waTextBody, waEntry, waChange, waValue, waMessage,
      jget, jgetD, jindex, lookupKey, jeq, jtruthy, processEntryWhats,
      processChange, processWhatsMessage, processWhatsText, whatsReplyOk,
      doSendWhatsText, forJson, jstrOf, pyTruthyStrO,
      htokW, hint, hmid, hsid, hpid]
  · intro ps hmem
    simp [handleWebhook, waTextBody, waEntry, waChange, waValue, waMessage,
      jget, jgetD, lookupKey, jeq, jtruthy, processEntryWhats, processChange,
      processWhatsMessage, forJson, hmid, hmem]
  · intro e
    simp [handleWebhook, waTextBody, waEntry, waChange, waValue, waMessage,
      jget, jgetD, lookupKey, jeq, jtruthy, processEntryWhats, processChange,
      processWhatsMessage, processWhatsText, doSendWhatsText, forJson, jstrOf,
      pyTruthyStrO, htokW, hmid, hsid, hpid]
  · intro htext
    refine ⟨?_, ?_⟩
    · simp [handleWebhook, msTextBody, jget, jgetD, lookupKey, jeq, jtruthy,
        processEntryMess, processMessEvent, processMessText, messReplyOk,
        doSendMessText, forJson, jstrOf, pyTruthyStrO,
        htokM, hint, hmid, hsid, htext]
    · intro ps hmem
      simp [handleWebhook, msTextBody, jget, jgetD, lookupKey, jeq, jtruthy,
        processEntryMess, processMessEvent, forJson, hmid, hmem]

/-- A fully-succeeding router oracle for witnesses. -/
def oWeb0 : WebOracle :=
  { whatsToken := true
    messengerToken := true
    interviewText := fun _ => .ok ⟨"the answer", none⟩
    interviewAudio := .ok ⟨"the answer", none⟩
    validateUrl := fun _ => true
    sendWhatsTextOk := true
    sendWhatsAudioOk := true
    sendMessTextOk := true
    sendMessAudioOk := true
    downloadAudio := some ()
    downloadSize := 4096
    waPydub := .ok ()
    waFfmpeg := .ok ()
    urlretrieve := .ok () }

/-- Witness for C1_dedup_idempotent: a concrete message processed once,
then dropped at the dedup gate on redelivery. -/
theorem C1_dedup_idempotent_witness :
    (handleWebhook oWeb0 (.ok (waTextBody "wamid.1" "15550001" "123" "hello"))
        []).1.effects =
      [.pipelineText (.jstr "hello"),
       .sendWhatsText "123" "15550001"
         (mkWhatsappTextPayload "15550001" "the answer").body] ∧
    (handleWebhook oWeb0 (.ok (waTextBody "wamid.1" "15550001" "123" "hello"))
        [.jstr "wamid.1"]).1.effects = [] := by
  have h := C1_dedup_idempotent oWeb0 "wamid.1" "15550001" "123" "hello"
    "the answer" (by decide) (by decide) (by decide) rfl rfl rfl
  exact ⟨h.1.1, (h.2.1 [.jstr "wamid.1"] (by simp [jeq])).1⟩

/-- A delivery body whose envelope shape breaks the routing loop: the entry
list holds a bare string, so `entry.get("changes", [])` raises an
AttributeError that escapes to the outer handler. -/
def waBadBody : Json :=
  .jobj [("object", .jstr "whatsapp_business_account"),
    ("entry", .jarr [.jstr "bad"])]

/-- C8 (counterexample): the claim says the webhook POST handler never
propagates an exception to the transport and acknowledges every accepted
body with a success status; but a syntactically valid delivery body whose
envelope shape breaks the routing loop is answered with an HTTP 500 error,
re-raised by the outer except (main.py:300-302), not with a success
acknowledgement. -/
theorem C8_counterexample :
    (handleWebhook oWeb0 (.ok waBadBody) []).2 = .httpError 500 "AttributeError"
      ∧ (handleWebhook oWeb0 (.ok waBadBody) []).2 ≠ .success 200 := by
  have h1 : (handleWebhook oWeb0 (.ok waBadBody) []).2
      = .httpError 500 "AttributeError" := by
    simp [handleWebhook, waBadBody, jget, jgetD, lookupKey, jeq,
      processEntryWhats, forJson, pyExnMsg]
  refine ⟨h1, ?_⟩
  rw [h1]
  simp

/-- C8 (amended): for a delivery whose envelope traverses cleanly (here the
well-formed single-text-message shape), the handler acknowledges 200 no
matter what the per-message processing does — any pipeline failure is
caught and answered with a best-effort apology on the same channel; but a
body that breaks envelope traversal itself (e.g. a non-dict entry) is
answered with an HTTP 500 error to the transport rather than a success
status. -/
theorem C8_amended (o : WebOracle) (mid sid pid text : String) (ps : List Json) :
    (handleWebhook o (.ok (waTextBody mid sid pid text)) ps).2 = .success 200 ∧
    (∀ e, o.whatsToken = true → mid ≠ "" → sid ≠ "" → pid ≠ "" →
      o.interviewText (.jstr text) = .error e →
      (handleWebhook o (.ok (waTextBody mid sid pid text)) []).1.effects =
        [.pipelineText (.jstr text),
         .sendWhatsText pid sid
           (mkWhatsappTextPayload sid
             "Sorry, I couldn't process your request.").body]) ∧
    (handleWebhook o (.ok waBadBody) ps).2 = .httpError 500 "AttributeError" := by
  refine ⟨waTextBody_always_ack o mid sid pid text ps, ?_, ?_⟩
  · intro e htokW hmid hsid hpid hint
    simp [handleWebhook, waTextBody, waEntry, waChange, waValue, waMessage,
      jget, jgetD, lookupKey, jeq, jtruthy, processEntryWhats, processChange,
      processWhatsMessage, processWhatsText, doSendWhatsText, forJson, jstrOf,
      pyTruthyStrO, htokW, hint, hmid, hsid, hpid]
  · simp [handleWebhook, waBadBody, jget, jgetD, lookupKey, jeq,
      processEntryWhats, forJson, pyExnMsg]

/-- Witness for C8_amended: a failing pipeline is still acknowledged with
200 and answered with the apology text. -/
theorem C8_amended_witness :
    (handleWebhook { oWeb0 with interviewText := fun _ => .error "boom" }
        (.ok (waTextBody "wamid.9" "15550001" "123" "hi")) []).2
      = .success 200 ∧
    (handleWebhook { oWeb0 with interviewText := fun _ => .error "boom" }
        (.ok (waTextBody "wamid.9" "15550001" "123" "hi")) []).1.effects =
      [.pipelineText (.jstr "hi"),
       .sendWhatsText "123" "15550001"
         (mkWhatsappTextPayload "15550001"
           "Sorry, I couldn't process your request.").body] := by
  have h := C8_amended { oWeb0 with interviewText := fun _ => .error "boom" }
    "wamid.9" "15550001" "123" "hi" []
  exact ⟨h.1, h.2.1 "boom" rfl (by decide) (by decide) (by decide) rfl⟩

/-! ## Theorems for claim C9 -/

/-- C9 (counterexample): in the pipeline's voice-reply synthesis step, the
MP3→OGG conversion does not fall back to the external codec tool: when the
codec library fails, the step raises immediately and the tool strategy is
never invoked — contradicting the claim that the synthesis step tries the
ordered two-strategy list. -/
theorem C9_counterexample :
    (synthesisMp3ToOgg (.error "boom")).1
        = .error "Failed to convert MP3 to OGG: boom" ∧
    Strategy.tool ∉ (synthesisMp3ToOgg (.error "boom")).2 := by
  constructor
  · rfl
  · decide

/-- C9 (amended): the ordered two-strategy fallback chain — codec library
first, then on its failure the external codec tool with explicit mono
(`-ac 1`) and 16kHz (`-ar 16000`) normalization, stopping at the first
success and propagating the tool's failure only if both fail — is
implemented in the webhook's inbound OGG→WAV conversion (main.py:199-219);
the pipeline's voice-reply MP3→OGG conversion (interview.py:204-212)
instead tries only the codec library and raises on its failure. -/
theorem C9_amended (e1 e2 inp outp : String) :
    webhookOggToWav (.ok ()) (.error e2) = (.ok (), [.library]) ∧
    webhookOggToWav (.ok ()) (.ok ()) = (.ok (), [.library]) ∧
    webhookOggToWav (.error e1) (.ok ()) = (.ok (), [.library, .tool]) ∧
    webhookOggToWav (.error e1) (.error e2) = (.error e2, [.library, .tool]) ∧
    "-ac" ∈ ffmpegCmd inp outp ∧ "1" ∈ ffmpegCmd inp outp ∧
    "-ar" ∈ ffmpegCmd inp outp ∧ "16000" ∈ ffmpegCmd inp outp ∧
    (synthesisMp3ToOgg (.error e1)).1
        = .error ("Failed to convert MP3 to OGG: " ++ e1) ∧
    (synthesisMp3ToOgg (.error e1)).2 = [.library] := by
  refine ⟨rfl, rfl, rfl, rfl, ?_, ?_, ?_, ?_, rfl, rfl⟩ <;> simp [ffmpegCmd]

/-! ## Theorems for claims C7 and C10 -/

/-- C7 (counterexample): the claim says validation fails exactly when the
number of populated inputs differs from one; but a request with exactly one
populated input — an empty-string `text` field — is rejected, because the
zero-inputs check uses Python truthiness while the multiplicity check counts
non-None values. -/
theorem C7_counterexample :
    populatedCount none (some "") none = 1 ∧
      interviewInputCheck none (some "") none ≠ .ok := by
  constructor
  · rfl
  · intro h
    simp [interviewInputCheck, pyTruthyStrO, pyTruthyStr] at h

/-- C7 (amended): validation rejects when all three inputs are Python-falsy
(absent or an empty string) or when more than one input is non-None; whenever
no provided string field is the empty string, this coincides with the claim:
validation passes exactly when the number of populated (non-None) inputs is
one. -/
theorem C7_amended (audio : Option UploadMeta) (text question : Option String)
    (ht : text ≠ some "") (hq : question ≠ some "") :
    interviewInputCheck audio text question = .ok ↔
      populatedCount audio text question = 1 := by
  cases audio <;> cases text <;> cases question <;>
    simp_all [interviewInputCheck, populatedCount, pyTruthyStrO, pyTruthyStr]

/-- Witness for C7_amended at a concrete input: a lone nonempty `text`
passes validation. -/
theorem C7_amended_witness :
    interviewInputCheck none (some "hello") none = .ok ↔
      populatedCount none (some "hello") none = 1 :=
  C7_amended none (some "hello") none (by decide) (by decide)

/-- C10: every outbound text reply is truncated before sending — the
WhatsApp sender transmits exactly the first 4096 characters of the answer
(hence at most 4096), and the Messenger sender transmits exactly the first
640 characters (hence at most 640). -/
theorem C10_truncation (recipient_id text : String) :
    (mkWhatsappTextPayload recipient_id text).body.data = text.data.take 4096 ∧
      (mkWhatsappTextPayload recipient_id text).body.length ≤ 4096 ∧
      (mkMessengerTextPayload recipient_id text).body.data = text.data.take 640 ∧
      (mkMessengerTextPayload recipient_id text).body.length ≤ 640 := by
  refine ⟨rfl, ?_, rfl, ?_⟩
  · show (text.data.take 4096).length ≤ 4096
    exact List.length_take_le 4096 text.data
  · show (text.data.take 640).length ≤ 640
    exact List.length_take_le 640 text.data

end GenAIBE
